import Mathlib

/-!
# phc2sys: clock synchronisation loop, leap-second gate and PPS reader

A shallow embedding of `phc2sys.c` and of the synchronisation of the external
switch in `sja1105.c`.

Conventions of the embedding.

* C integers are Lean integers.  Signed C arithmetic is modelled exactly: signed
  overflow is undefined in C, so the model describes the executions in which it
  does not occur.  A value stored in a `uint64_t` is reduced modulo `2^64`
  (`u64`), a `uint64_t` converted to `int64_t` is reduced to the signed range
  (`i64`), as the C implementation does.
* Output parameters (`int64_t *offset`, ...) are passed in and returned: a path
  that does not assign through the pointer returns the value passed in.
* Calls to collaborators outside the file (clock reads, the servo, the sanity
  check, `is_utc_ambiguous`, `leap_second_status`, the management client) take
  their results from an environment record and are logged as events.
* Constants declared in headers outside the file (`CLOCK_REALTIME`, the
  management ids, the flag masks) are fields of the environment record: every
  result holds for all their values.
* The `double` holding the servo's frequency is an arbitrary type `F` with a
  negation.
* In `sja1105.c` the `double`s of the PI servo (gains, integrator, ratio) are
  exact rationals, and the conversion to `int64_t` truncates towards zero.  The
  division by a cycle length of zero in `sja1105_qbv_start` is undefined in C:
  the functions that reach it return an `Option`, `none` on that path only.
-/

namespace Phc2sys

/-! ## Constants and machine integers -/

/-- Nanoseconds per second (`NS_PER_SEC`). -/
def NS_PER_SEC : Int := 1000000000

/-- Largest distance past the start of a second accepted for a PPS edge. -/
def PHC_PPS_OFFSET_LIMIT : Int := 10000000

/-- Refresh interval of the management data, `60 * NS_PER_SEC`. -/
def PMC_UPDATE_INTERVAL : Int := 60 * NS_PER_SEC

/-- Largest `int64_t`. -/
def INT64_MAX : Int := 9223372036854775807

/-- Value of an integer stored in a `uint64_t`. -/
def u64 (x : Int) : Int := x % 18446744073709551616

/-- Value of an integer converted to `int64_t`. -/
def i64 (x : Int) : Int :=
  (x + 9223372036854775808) % 18446744073709551616 - 9223372036854775808

/-- A `struct timespec`. -/
structure timespec where
  tv_sec : Int
  tv_nsec : Int
deriving DecidableEq

/-- Nanoseconds since the epoch denoted by a timespec. -/
def timespec.ns (t : timespec) : Int := t.tv_sec * 1000000000 + t.tv_nsec

/-- A timespec as a clock yields it: normalised nanoseconds and a count of
seconds in `[0, 2^32)`, the range in which the 64-bit nanosecond arithmetic of
the program is exact. -/
def timespec.valid (t : timespec) : Prop :=
  0 ≤ t.tv_sec ∧ t.tv_sec < 4294967296 ∧ 0 ≤ t.tv_nsec ∧ t.tv_nsec < 1000000000

instance (t : timespec) : Decidable t.valid := by
  unfold timespec.valid; infer_instance

/-! ## PHC offset estimator (`read_phc`) -/

/-- The outcome of the three `clock_gettime` calls of one iteration of
`read_phc`, in program order; `none` is a failed call. -/
structure reading where
  tdst1 : Option timespec
  tsrc : Option timespec
  tdst2 : Option timespec
deriving DecidableEq

/-- Return value and output parameters of `read_phc`. -/
structure phc_out where
  ret : Int
  offset : Int
  ts : Int
  delay : Int
deriving DecidableEq

/-- The `for` loop of `read_phc`: `k` iterations remain, `i` is the loop
counter, `best_interval`, `offset` and `ts` are the current values of the local
and of the two output parameters, `delay` the value `*delay` had at entry. -/
def read_phc_loop (reads : Nat → reading) :
    Nat → Nat → Int → Int → Int → Int → phc_out
  | 0, _, best_interval, offset, ts, _ =>
    { ret := 1, offset := offset, ts := ts, delay := best_interval }
  | k + 1, i, best_interval, offset, ts, delay =>
    match (reads i).tdst1, (reads i).tsrc, (reads i).tdst2 with
    | some tdst1, some tsrc, some tdst2 =>
      let interval := (tdst2.tv_sec - tdst1.tv_sec) * NS_PER_SEC +
        tdst2.tv_nsec - tdst1.tv_nsec
      if best_interval > interval then
        read_phc_loop reads k (i + 1) interval
          ((tdst1.tv_sec - tsrc.tv_sec) * NS_PER_SEC +
            tdst1.tv_nsec - tsrc.tv_nsec + Int.tdiv interval 2)
          (u64 (tdst2.tv_sec * NS_PER_SEC + tdst2.tv_nsec)) delay
      else
        read_phc_loop reads k (i + 1) best_interval offset ts delay
    | _, _, _ => { ret := 0, offset := offset, ts := ts, delay := delay }

/-- The function `read_phc`: `reads i` are the clock readings of iteration `i`,
`readings` the reading count, `offset`, `ts`, `delay` the values behind the
output pointers at entry. -/
def read_phc (reads : Nat → reading) (readings : Int) (offset ts delay : Int) :
    phc_out :=
  read_phc_loop reads readings.toNat 0 INT64_MAX offset ts delay

/-- Three successful readings of one iteration. -/
structure triple where
  t_dst1 : timespec
  t_src : timespec
  t_dst2 : timespec
deriving DecidableEq

/-- The iteration outcome in which the three reads succeeded. -/
def triple.toReading (r : triple) : reading :=
  { tdst1 := some r.t_dst1, tsrc := some r.t_src, tdst2 := some r.t_dst2 }

/-- All three timestamps of a triple are valid clock readings. -/
def triple.valid (r : triple) : Prop :=
  r.t_dst1.valid ∧ r.t_src.valid ∧ r.t_dst2.valid

instance (r : triple) : Decidable r.valid := by
  unfold triple.valid; infer_instance

/-- The bracket width `t_dst2 - t_dst1` in nanoseconds. -/
def triple.interval (r : triple) : Int := r.t_dst2.ns - r.t_dst1.ns

/-- The midpoint estimate `t_dst1 - t_src + interval / 2` of slave minus
master, with the truncating division of C. -/
def triple.estimate (r : triple) : Int :=
  r.t_dst1.ns - r.t_src.ns + Int.tdiv r.interval 2

/-! ## Data model -/

/-- The states a servo reports (`enum servo_state` of `servo.h`). -/
inductive servo_state where
  | SERVO_UNLOCKED
  | SERVO_JUMP
  | SERVO_LOCKED
deriving DecidableEq

/-- The texts a `source_label` points to. -/
inductive label where
  | sys
  | phc
  | pps
deriving DecidableEq

/-- The fields of `struct clock` the modelled functions use.  The servo, the
statistics and the sanity check are owned by libraries outside the file: of
their pointers only the null test is kept. -/
structure clock where
  clkid : Int
  sysoff_supported : Int
  is_utc : Int
  servo_state : servo_state
  source_label : label
  has_offset_stats : Bool
  has_sanity_check : Bool
deriving DecidableEq

/-- The fields of `struct node` the modelled functions use; `master` is the
clock `node->master` points to, `has_pmc` is `node->pmc != NULL`. -/
structure node where
  stats_max_count : Int
  phc_readings : Int
  sync_offset : Int
  forced_sync_offset : Int
  leap : Int
  leap_set : Int
  kernel_leap : Int
  has_pmc : Bool
  pmc_ds_requested : Int
  pmc_last_update : Int
  master : clock
deriving DecidableEq

/-- The fields of a received management message that `is_msg_mgt`,
`get_mgt_id` and the readers of its data use; `portState` is the data read as
a `struct portDS`, `currentUtcOffset` and `flags` the data read as a
`struct timePropertiesDS`. -/
structure ptp_message where
  msg_type : Int
  action : Int
  tlv_count : Int
  tlv_type : Int
  mgt_id : Int
  portState : Int
  currentUtcOffset : Int
  flags : Nat
deriving DecidableEq

/-- One round of the `poll` loop of `run_pmc` as the environment answers it:
the return value of `poll`, whether `revents` has `POLLOUT`, whether it has
`POLLIN` or `POLLPRI`, and what `pmc_recv` returns if it is called. -/
structure poll_step where
  cnt : Int
  pollout : Bool
  pollin : Bool
  recv : Option ptp_message
deriving DecidableEq

/-- Constants of headers that are not part of the file. -/
structure consts where
  CLOCK_REALTIME : Int
  CLOCK_INVALID : Int
  MANAGEMENT : Int
  RESPONSE : Int
  TLV_MANAGEMENT : Int
  PORT_DATA_SET : Int
  TIME_PROPERTIES_DATA_SET : Int
  PS_MASTER : Int
  PS_SLAVE : Int
  PTP_TIMESCALE : Nat
  LEAP_61 : Nat
  LEAP_59 : Nat
deriving DecidableEq

/-- Observable calls to collaborators outside the file, in program order. -/
inductive Event (F : Type) where
  | clock_gettime (clkid : Int)
  | pr_err_read_clock
  | pr_info_suspended
  | sysclk_set_leap (leap : Int)
  | clockcheck_sample (ts : Int)
  | servo_reset
  | servo_sample (offset : Int) (ts : Int)
  | clockadj_step (clkid : Int) (step : Int)
  | clockcheck_step (step : Int)
  | clockadj_set_freq (clkid : Int) (freq : F)
  | sysclk_set_sync
  | clockcheck_set_freq (freq : F)
  | update_clock_stats (max_count : Int) (offset : Int) (freq : F) (delay : Int)
  | pr_info_offset (src : label) (offset : Int) (state : servo_state) (freq : F)
      (delay : Option Int)
  | pr_err_fetch_pps
  | pr_warning_pps_not_in_sync (frac : Int)
  | enable_pps_output (clkid : Int)
  | poll (want_out : Bool)
  | pr_err_poll
  | pmc_send_get_action (ds_id : Int)
  | msg_put
  | leap_second_status (ts : Int) (leap_set : Int) (leap : Int) (utc_offset : Int)
deriving DecidableEq

/-- What the world outside the file answers during one tick. -/
structure Env (F : Type) where
  /-- the header constants -/
  K : consts
  /-- `ioctl(fd, PPS_FETCH, &pfd)`: the assert time `(sec, nsec)`, `none` on failure -/
  pps_fetch : Option (Int × Int)
  /-- the clock readings of the iterations of `read_phc` -/
  phc_reads : Nat → reading
  /-- `clock_gettime(CLOCK_REALTIME, &tp)` in `update_sync_offset` -/
  realtime : Option timespec
  /-- the rounds of the `poll` loop of `run_pmc` -/
  polls : List poll_step
  /-- `leap_second_status(ts, leap_set, &leap, &utc_offset)` of `util.c`: the
  return value and the new values of `leap` and `utc_offset` -/
  leap_second_status : Int → Int → Int → Int → Int × Int × Int
  /-- `clock_gettime(node->master->clkid, &tp)` in `clock_handle_leap` -/
  master_gettime : Option timespec
  /-- `is_utc_ambiguous(ts)` of `util.c` -/
  is_utc_ambiguous : Int → Int
  /-- `clockcheck_sample(clock->sanity_check, ts)` -/
  clockcheck_sample : Int → Int
  /-- `servo_sample(clock->servo, offset, ts, &state)`: the frequency and the
  state, given whether `servo_reset` was called just before -/
  servo_sample : Bool → Int → Int → F × servo_state

/-! ## Sync offset (`get_sync_offset`) and the `-O` option of `main` -/

/-- The function `get_sync_offset`. -/
def get_sync_offset (n : node) (dst : clock) : Int :=
  let direction := n.forced_sync_offset
  let direction := if direction = 0 then dst.is_utc - n.master.is_utc else direction
  n.sync_offset * NS_PER_SEC * direction

/-- The case `'O'` of the option loop of `main`, for an argument that
`get_arg_val_i` parsed as `val`. -/
def main_case_O (n : node) (val : Int) : node :=
  { n with sync_offset := val, forced_sync_offset := -1 }

/-! ## The per-clock leap gate (`clock_handle_leap`) -/

/-- Return value of `clock_handle_leap`, the node and the clock behind its
pointers when it returns, and its calls. -/
structure leap_out (F : Type) where
  ret : Int
  node : node
  clock : clock
  events : List (Event F)
deriving DecidableEq

/-- The timestamp `clock_handle_leap` tests for ambiguity, from the timestamp
`ts` it holds after the optional re-read of the master clock. -/
def leap_target_ts (n : node) (c : clock) (offset ts : Int) : Int :=
  if c.is_utc ≠ 0 ∧ c.servo_state = servo_state.SERVO_UNLOCKED then
    u64 (ts - (offset + get_sync_offset n c))
  else ts

/-- The part of `clock_handle_leap` after the optional re-read of the master
clock; `evs` are the calls made so far. -/
def clock_handle_leap_tail {F : Type} (env : Env F) (n : node) (c : clock)
    (offset ts do_leap : Int) (evs : List (Event F)) : leap_out F :=
  let ts := leap_target_ts n c offset ts
  if env.is_utc_ambiguous ts ≠ 0 then
    { ret := 1, node := n, clock := c, events := evs ++ [Event.pr_info_suspended] }
  else if do_leap ≠ 0 ∧ c.clkid = env.K.CLOCK_REALTIME ∧ n.kernel_leap ≠ 0 then
    { ret := 0, node := n, clock := c,
      events := evs ++ [Event.sysclk_set_leap n.leap_set] }
  else
    { ret := 0, node := n, clock := c, events := evs }

/-- The function `clock_handle_leap`. -/
def clock_handle_leap {F : Type} (env : Env F) (n : node) (c : clock)
    (offset ts do_leap : Int) : leap_out F :=
  if n.leap = 0 ∧ do_leap = 0 then
    { ret := 0, node := n, clock := c, events := [] }
  else if c.is_utc = n.master.is_utc then
    { ret := 0, node := n, clock := c, events := [] }
  else if n.master.is_utc ≠ 0 then
    match env.master_gettime with
    | none =>
      { ret := -1, node := n, clock := c,
        events := [Event.clock_gettime n.master.clkid, Event.pr_err_read_clock] }
    | some tp =>
      clock_handle_leap_tail env n c offset
        (u64 (tp.tv_sec * NS_PER_SEC + tp.tv_nsec)) do_leap
        [Event.clock_gettime n.master.clkid]
  else
    clock_handle_leap_tail env n c offset ts do_leap []

/-! ## Applying an update (`update_clock`) -/

/-- The node and the clock after `update_clock`, and its calls. -/
structure update_out (F : Type) where
  node : node
  clock : clock
  events : List (Event F)
deriving DecidableEq

/-- The calls of the `SERVO_LOCKED` case of the `switch` of `update_clock`. -/
def locked_events {F : Type} [Neg F] (env : Env F) (c : clock) (ppb : F) :
    List (Event F) :=
  [Event.clockadj_set_freq c.clkid (-ppb)] ++
  (if c.clkid = env.K.CLOCK_REALTIME then [Event.sysclk_set_sync] else []) ++
  (if c.has_sanity_check then [Event.clockcheck_set_freq (-ppb)] else [])

/-- The calls of the `switch (state)` of `update_clock`; `SERVO_JUMP` falls
through to `SERVO_LOCKED`. -/
def switch_events {F : Type} [Neg F] (env : Env F) (c : clock) (offset : Int)
    (ppb : F) : servo_state → List (Event F)
  | servo_state.SERVO_UNLOCKED => []
  | servo_state.SERVO_JUMP =>
    [Event.clockadj_step c.clkid (-offset)] ++
    (if c.has_sanity_check then [Event.clockcheck_step (-offset)] else []) ++
    locked_events env c ppb
  | servo_state.SERVO_LOCKED => locked_events env c ppb

/-- The function `update_clock`. -/
def update_clock {F : Type} [Neg F] (env : Env F) (n : node) (c : clock)
    (offset ts delay do_leap : Int) : update_out F :=
  let g := clock_handle_leap env n c offset ts do_leap
  if g.ret ≠ 0 then
    { node := g.node, clock := g.clock, events := g.events }
  else
    let n := g.node
    let c := g.clock
    let offset := offset + get_sync_offset n c
    let reset : Bool := c.has_sanity_check && decide (env.clockcheck_sample ts ≠ 0)
    let ev_check : List (Event F) :=
      (if c.has_sanity_check then [Event.clockcheck_sample ts] else []) ++
      (if reset then [Event.servo_reset] else [])
    let ppb := (env.servo_sample reset offset ts).1
    let state := (env.servo_sample reset offset ts).2
    let ev_report : List (Event F) :=
      if c.has_offset_stats then
        [Event.update_clock_stats n.stats_max_count offset ppb delay]
      else
        [Event.pr_info_offset n.master.source_label offset state ppb
          (if delay ≥ 0 then some delay else none)]
    { node := n, clock := { c with servo_state := state },
      events := g.events ++ ev_check ++ [Event.servo_sample offset ts] ++
        switch_events env c offset ppb state ++ ev_report }

/-! ## PPS reader (`read_pps`) -/

/-- Return value and output parameters of `read_pps`. -/
structure pps_out where
  ret : Int
  offset : Int
  ts : Int
deriving DecidableEq

/-- The function `read_pps`; `fetch` is the result of the `PPS_FETCH` ioctl. -/
def read_pps (fetch : Option (Int × Int)) (offset ts : Int) : pps_out :=
  match fetch with
  | none => { ret := 0, offset := offset, ts := ts }
  | some (sec, nsec) =>
    let ts := u64 (sec * NS_PER_SEC)
    let ts := u64 (ts + nsec)
    let offset := ts % NS_PER_SEC
    let offset := if offset > NS_PER_SEC / 2 then offset - NS_PER_SEC else offset
    { ret := 1, offset := offset, ts := ts }

/-! ## Management client (`run_pmc`, `run_pmc_get_utc_offset`) -/

/-- The function `is_msg_mgt`. -/
def is_msg_mgt (K : consts) (msg : ptp_message) : Int :=
  if msg.msg_type ≠ K.MANAGEMENT then 0
  else if msg.action ≠ K.RESPONSE then 0
  else if msg.tlv_count ≠ 1 then 0
  else if msg.tlv_type ≠ K.TLV_MANAGEMENT then 0
  else 1

/-- The function `get_mgt_id`. -/
def get_mgt_id (msg : ptp_message) : Int := msg.mgt_id

/-- Return value of `run_pmc`, the node and `*msg` when it returns, and its
calls. -/
structure pmc_out (F : Type) where
  ret : Int
  node : node
  msg : Option ptp_message
  events : List (Event F)
deriving DecidableEq

/-- The function `run_pmc`: one loop round per element of the list of poll
answers; `none` when the answers run out before the loop returns. -/
def run_pmc {F : Type} (K : consts) (ds_id : Int) :
    List poll_step → node → Option ptp_message → List (Event F) → Option (pmc_out F)
  | [], _, _, _ => none
  | p :: ps, n, msg, evs =>
    let evs := evs ++ [Event.poll (decide (n.pmc_ds_requested = 0))]
    if p.cnt < 0 then
      some { ret := -1, node := n, msg := msg, events := evs ++ [Event.pr_err_poll] }
    else if p.cnt = 0 then
      some { ret := 0, node := { n with pmc_ds_requested := 0 }, msg := msg,
             events := evs }
    else
      let send : Bool := p.pollout && !p.pollin
      let n := if send then { n with pmc_ds_requested := 1 } else n
      let evs := if send then evs ++ [Event.pmc_send_get_action ds_id] else evs
      if !p.pollin then run_pmc K ds_id ps n msg evs
      else
        match p.recv with
        | none => run_pmc K ds_id ps n none evs
        | some m =>
          if is_msg_mgt K m = 0 ∨ get_mgt_id m ≠ ds_id then
            run_pmc K ds_id ps n none (evs ++ [Event.msg_put])
          else
            some { ret := 1, node := { n with pmc_ds_requested := 0 }, msg := some m,
                   events := evs }

/-- Return value of a function that only updates the node, the node when it
returns, and its calls. -/
structure node_out (F : Type) where
  ret : Int
  node : node
  events : List (Event F)
deriving DecidableEq

/-- The assignments `run_pmc_get_utc_offset` makes from an accepted
`timePropertiesDS`. -/
def store_time_properties (K : consts) (n : node) (tds : ptp_message) : node :=
  if tds.flags &&& K.PTP_TIMESCALE ≠ 0 then
    { n with
      sync_offset := tds.currentUtcOffset,
      leap := if tds.flags &&& K.LEAP_61 ≠ 0 then 1
              else if tds.flags &&& K.LEAP_59 ≠ 0 then -1
              else 0 }
  else n

/-- The function `run_pmc_get_utc_offset`. -/
def run_pmc_get_utc_offset {F : Type} (env : Env F) (n : node) : Option (node_out F) :=
  match run_pmc env.K env.K.TIME_PROPERTIES_DATA_SET env.polls n none [] with
  | none => none
  | some r =>
    if r.ret ≤ 0 then some { ret := r.ret, node := r.node, events := r.events }
    else
      match r.msg with
      | none => none
      | some tds =>
        some { ret := 1, node := store_time_properties env.K r.node tds,
               events := r.events ++ [Event.msg_put] }

/-! ## Leap-second coordinator (`update_sync_offset`) -/

/-- The part of `update_sync_offset` that refreshes the management data: `ts`
is the wall-clock reading. -/
def update_sync_offset_refresh {F : Type} (env : Env F) (n : node) (ts : Int) :
    Option (node_out F) :=
  if n.has_pmc = true ∧
      ¬ (ts > n.pmc_last_update ∧ u64 (ts - n.pmc_last_update) < PMC_UPDATE_INTERVAL) then
    match run_pmc_get_utc_offset env n with
    | none => none
    | some r =>
      some { ret := r.ret,
             node := if r.ret > 0 then { r.node with pmc_last_update := ts } else r.node,
             events := r.events }
  else some { ret := 0, node := n, events := [] }

/-- The part of `update_sync_offset` after the comment "Handle leap seconds". -/
def update_sync_offset_leap {F : Type} (env : Env F) (n : node) (ts : Int)
    (evs : List (Event F)) : node_out F :=
  if n.leap = 0 ∧ n.leap_set = 0 then { ret := 0, node := n, events := evs }
  else
    let r := env.leap_second_status ts n.leap_set n.leap n.sync_offset
    let clock_leap := r.1
    let evs := evs ++ [Event.leap_second_status ts n.leap_set n.leap n.sync_offset]
    let n := { n with leap := r.2.1, sync_offset := r.2.2 }
    if n.leap_set ≠ clock_leap then
      { ret := 1, node := { n with leap_set := clock_leap }, events := evs }
    else { ret := 0, node := n, events := evs }

/-- The function `update_sync_offset`; `none` when the poll answers run out
inside `run_pmc`. -/
def update_sync_offset {F : Type} (env : Env F) (n : node) : Option (node_out F) :=
  match env.realtime with
  | none =>
    some { ret := -1, node := n,
           events := [Event.clock_gettime env.K.CLOCK_REALTIME, Event.pr_err_read_clock] }
  | some tp =>
    let ts := u64 (tp.tv_sec * NS_PER_SEC + tp.tv_nsec)
    match update_sync_offset_refresh env n ts with
    | none => none
    | some r =>
      some (update_sync_offset_leap env r.node ts
        ([Event.clock_gettime env.K.CLOCK_REALTIME] ++ r.events))

/-! ## PPS loop (`do_pps_loop`) -/

/-- The local variables of `do_pps_loop` that live across iterations. -/
structure pps_vars where
  pps_offset : Int
  phc_offset : Int
  phc_delay : Int
  pps_ts : Int
  phc_ts : Int
  do_leap : Int
deriving DecidableEq

/-- How one iteration of the `while (1)` loop of `do_pps_loop` ends. -/
inductive pps_exit where
  /-- `read_pps` failed: `continue` -/
  | pps_failed
  /-- `read_phc` failed: `return -1` -/
  | phc_failed
  /-- the PPS is not in sync with the PHC: warning and `continue` -/
  | rejected
  /-- `update_sync_offset` returned an error: `continue` -/
  | leap_error
  /-- `update_clock` was called -/
  | updated
deriving DecidableEq

/-- State after one iteration of the loop of `do_pps_loop`. -/
structure pps_iter (F : Type) where
  outcome : pps_exit
  node : node
  clock : clock
  vars : pps_vars
  events : List (Event F)
deriving DecidableEq

/-- The statements of `do_pps_loop` before the loop. -/
def do_pps_loop_init {F : Type} (env : Env F) (n : node) : node × List (Event F) :=
  let n := { n with master := { n.master with source_label := label.pps } }
  if n.master.clkid = env.K.CLOCK_INVALID then ({ n with sync_offset := 0 }, [])
  else (n, [Event.enable_pps_output n.master.clkid])

/-- The PHC time of the estimate, `phc_ts -= phc_offset` on a `uint64_t`. -/
def phc_time (ts phc_offset : Int) : Int := u64 (ts - phc_offset)

/-- One iteration of the `while (1)` loop of `do_pps_loop`; `none` when the
poll answers run out inside `run_pmc`. -/
def do_pps_loop_body {F : Type} [Neg F] (env : Env F) (n : node) (c : clock)
    (v : pps_vars) : Option (pps_iter F) :=
  let src := n.master.clkid
  let r := read_pps env.pps_fetch v.pps_offset v.pps_ts
  let v := { v with pps_offset := r.offset, pps_ts := r.ts }
  if r.ret = 0 then
    some { outcome := pps_exit.pps_failed, node := n, clock := c, vars := v,
           events := [Event.pr_err_fetch_pps] }
  else
    let phc : Option (pps_exit × List (Event F)) × pps_vars :=
      if src ≠ env.K.CLOCK_INVALID then
        let p := read_phc env.phc_reads n.phc_readings v.phc_offset v.phc_ts v.phc_delay
        let v := { v with phc_offset := p.offset, phc_ts := p.ts, phc_delay := p.delay }
        if p.ret = 0 then (some (pps_exit.phc_failed, [Event.pr_err_read_clock]), v)
        else
          let v := { v with phc_ts := phc_time v.phc_ts v.phc_offset }
          if v.phc_ts % NS_PER_SEC > PHC_PPS_OFFSET_LIMIT then
            (some (pps_exit.rejected,
              [Event.pr_warning_pps_not_in_sync (v.phc_ts % NS_PER_SEC)]), v)
          else
            let v := { v with phc_ts := v.phc_ts / NS_PER_SEC * NS_PER_SEC }
            (none, { v with pps_offset := i64 (u64 (v.pps_ts - v.phc_ts)) })
      else (none, v)
    match phc with
    | (some (e, evs), v) =>
      some { outcome := e, node := n, clock := c, vars := v, events := evs }
    | (none, v) =>
      match update_sync_offset env n with
      | none => none
      | some s =>
        let v := { v with do_leap := s.ret }
        if s.ret < 0 then
          some { outcome := pps_exit.leap_error, node := s.node, clock := c, vars := v,
                 events := s.events }
        else
          let u := update_clock env s.node c v.pps_offset v.pps_ts (-1) v.do_leap
          some { outcome := pps_exit.updated, node := u.node, clock := u.clock, vars := v,
                 events := s.events ++ u.events }

/-! ## `sja1105.c`: data model

The header `sja1105.h` and the SPI library of the switch are not part of the
sources.  The calls into the library take their results from an environment
record and are logged, but for the clock reads inside `sja1105_calculate`,
whose results alone matter.  A `double` is an exact rational here: rounding,
infinities and NaN are outside the model.
-/

/-- The scale of the rate adjustment, `ADJ_SCALE`. -/
def ADJ_SCALE : Int := 10000000

/-- The states of the Qbv engine that `sja1105_qbv_monitor` tells apart. -/
inductive qbv_state where
  | QBV_STATE_DISABLED
  | QBV_STATE_ENABLED_NOT_RUNNING
  | QBV_STATE_RUNNING
deriving DecidableEq

/-- Modelled from the spec: the PI state `struct sja1105_sync_pi_servo` of
`sja1105.h`, which is not among the sources: the gains `kp`, `ki` and the drift
integral, as `sja1105.c` uses them. -/
structure sja1105_sync_pi_servo where
  kp : Rat
  ki : Rat
  drift_sum : Rat
deriving DecidableEq

/-- Modelled from the spec: the external switch context
`struct sja1105_sync_timer` of `sja1105.h`, which is not among the sources:
timer descriptor, validity flag, step threshold in ns, reset-requested flag,
rate multiplier, PI state, Qbv capability flag, cycle length, scheduled start
and state of the Qbv engine, as `sja1105.c` uses them. -/
structure sja1105_sync_timer where
  fd : Int
  valid : Int
  max_offset : Int
  reset_req : Int
  ratio : Rat
  sync_pi_s : sja1105_sync_pi_servo
  have_qbv : Int
  qbv_cycle_len : timespec
  qbv_start_time : timespec
  qbv_state : qbv_state
deriving DecidableEq

/-- The calls into the SPI library and the host clock that are logged: all of
them but the three clock reads of each iteration of `sja1105_calculate`, whose
answers are the readings the measurement is given. -/
inductive sja1105_call where
  | sja1105_ptp_reset
  | sja1105_ptp_clk_rate_set (ratio : Rat)
  | clock_gettime (clkid : Int)
  | sja1105_ptp_clk_set (ts : timespec)
  | sja1105_ptp_clk_add (ts : timespec)
  | sja1105_ptp_clk_get
  | sja1105_ptp_qbv_stop
  | sja1105_ptp_qbv_start_time_set (ts : timespec)
  | sja1105_ptp_qbv_correction_period_set (ts : timespec)
  | sja1105_ptp_qbv_start
  | sja1105_ptp_qbv_running
deriving DecidableEq

/-- The outcome of the three clock reads of one iteration of
`sja1105_calculate`: `clock_gettime`, `sja1105_ptp_clk_get`, `clock_gettime`;
`none` is a failed read. -/
structure sja1105_reading where
  t1 : Option timespec
  t2 : Option timespec
  t3 : Option timespec
deriving DecidableEq

/-- What the switch library and the host clock answer during one tick. -/
structure sja1105_env where
  /-- `sja1105_ptp_reset(&spi_setup)` -/
  ptp_reset : Int
  /-- `sja1105_ptp_clk_rate_set` in the reset sequence -/
  clk_rate_set_reset : Int
  /-- `clock_gettime(clkid, &cur_t)` in the reset sequence -/
  gettime : Option timespec
  /-- `sja1105_ptp_clk_set(&spi_setup, &cur_t)` -/
  clk_set : Int
  /-- the readings of `sja1105_calculate` in the reset sequence -/
  calc_reset : Nat → sja1105_reading
  /-- `sja1105_ptp_clk_add(&spi_setup, &offset_ts)` -/
  clk_add : Int
  /-- the readings of `sja1105_calculate` after the reset sequence -/
  calc_sync : Nat → sja1105_reading
  /-- `sja1105_ptp_clk_rate_set` after the servo -/
  clk_rate_set : Int
  /-- `sja1105_ptp_clk_get` in `sja1105_qbv_start` and `sja1105_qbv_monitor` -/
  ptp_clk_get : Option timespec
  /-- `sja1105_ptp_qbv_running(&spi_setup)`, 0 when the engine runs -/
  qbv_running : Int
  /-- `sja1105_ptp_qbv_stop(&spi_setup)` -/
  qbv_stop : Int
  /-- `sja1105_ptp_qbv_start_time_set` -/
  qbv_start_time_set : Int
  /-- `sja1105_ptp_qbv_correction_period_set` -/
  qbv_correction_period_set : Int
  /-- `sja1105_ptp_qbv_start(&spi_setup)` -/
  qbv_start : Int
  /-- `sja1105_timespec_to_ptp_time` -/
  timespec_to_ptp_time : timespec → Int
  /-- `sja1105_ptp_time_to_timespec` -/
  ptp_time_to_timespec : Int → timespec

/-- Return value of a function of `sja1105.c`, the global `sja1105_sync_t` when
it returns, and its logged calls. -/
structure sja1105_out where
  ret : Int
  t : sja1105_sync_timer
  events : List sja1105_call
deriving DecidableEq

/-! ## `sja1105.c`: creation of the timer -/

/-- The fields of the decoded static configuration that
`sja1105_parse_staging_area` reads: the count of schedule entry points, the
clock source of the first one, and the `delta` of the schedule slots. -/
structure sja1105_static_config where
  schedule_entry_points_params_count : Int
  clksrc0 : Int
  schedule_delta : List Int
deriving DecidableEq

/-- The function `sja1105_parse_staging_area`; `cfg` is the decoded static
configuration, `none` when the file cannot be opened, read or decoded. -/
def sja1105_parse_staging_area (cfg : Option sja1105_static_config)
    (t : sja1105_sync_timer) : Int × sja1105_sync_timer :=
  match cfg with
  | none => (-1, t)
  | some c =>
    if c.schedule_entry_points_params_count > 0 ∧ c.clksrc0 = 3 then
      let delta := u64 (c.schedule_delta.foldl (fun d x => u64 (d + x)) 0)
      (0, { t with have_qbv := 1,
                   qbv_cycle_len := ⟨u64 (delta * 200) / NS_PER_SEC,
                                     u64 (delta * 200) % NS_PER_SEC⟩ })
    else (0, { t with have_qbv := 0 })

/-- What the configuration and the system answer to `sja1105_sync_timer_create`. -/
structure sja1105_config where
  /-- `config_get_int(config, NULL, "sja1105_max_offset")` -/
  sja1105_max_offset : Int
  /-- `sja1105_spi_configure(&spi_setup)` -/
  spi_configure : Int
  /-- `timerfd_create(CLOCK_MONOTONIC, 0)` -/
  timerfd : Int
  /-- `config_get_double(config, NULL, "sja1105_sync_kp")` -/
  sja1105_sync_kp : Rat
  /-- `config_get_double(config, NULL, "sja1105_sync_ki")` -/
  sja1105_sync_ki : Rat
  /-- the decoded staging area -/
  staging : Option sja1105_static_config

/-- The function `sja1105_sync_timer_create`. -/
def sja1105_sync_timer_create (cfg : sja1105_config) (t : sja1105_sync_timer) :
    Int × sja1105_sync_timer :=
  let t := { t with max_offset := cfg.sja1105_max_offset }
  if t.max_offset = 0 then (-1, t)
  else
    let t := { t with max_offset := t.max_offset * 1000 }
    if cfg.spi_configure < 0 then (-1, t)
    else
      let t := { t with fd := cfg.timerfd }
      if t.fd < 0 then (-1, t)
      else
        let t := { t with valid := 1, reset_req := 1,
                          sync_pi_s := { t.sync_pi_s with kp := cfg.sja1105_sync_kp,
                                                          ki := cfg.sja1105_sync_ki } }
        let r := sja1105_parse_staging_area cfg.staging t
        if r.1 < 0 then (-1, r.2) else (0, r.2)

/-! ## `sja1105.c`: offset measurement and PI servo -/

/-- Return value and output parameters of `sja1105_calculate`. -/
structure sja1105_calc_out where
  ret : Int
  delay : Int
  offset : Int
deriving DecidableEq

/-- The `for` loop of `sja1105_calculate`: `k` iterations remain, `gettings` is
the loop counter. -/
def sja1105_calculate_loop (reads : Nat → sja1105_reading) :
    Nat → Nat → Int → Int → Int → sja1105_calc_out
  | 0, _, best_interval, _, offset =>
    { ret := 0, delay := Int.tdiv best_interval 2, offset := offset }
  | k + 1, gettings, best_interval, delay, offset =>
    match (reads gettings).t1, (reads gettings).t2, (reads gettings).t3 with
    | some t1_spec, some t2_spec, some t3_spec =>
      let interval := (t3_spec.tv_sec - t1_spec.tv_sec) * NS_PER_SEC +
        (t3_spec.tv_nsec - t1_spec.tv_nsec)
      if interval < best_interval then
        sja1105_calculate_loop reads k (gettings + 1) interval delay
          (t2_spec.tv_sec * NS_PER_SEC + t2_spec.tv_nsec -
            (t1_spec.tv_sec * NS_PER_SEC + t1_spec.tv_nsec) - Int.tdiv interval 2)
      else
        sja1105_calculate_loop reads k (gettings + 1) best_interval delay offset
    | _, _, _ => { ret := -1, delay := delay, offset := offset }

/-- The function `sja1105_calculate`; `delay` and `offset` are the values behind
the output pointers at entry. -/
def sja1105_calculate (reads : Nat → sja1105_reading) (delay offset : Int) :
    sja1105_calc_out :=
  sja1105_calculate_loop reads 3 0 INT64_MAX delay offset

/-- Conversion of a `double` to `int64_t`: the fraction is discarded. -/
def double_to_int64 (q : Rat) : Int := Int.tdiv q.num q.den

/-- The function `sja1105_sync_run_pi_servo`: the returned adjustment and the
PI state when it returns. -/
def sja1105_sync_run_pi_servo (s : sja1105_sync_pi_servo) (offset : Int) :
    Rat × sja1105_sync_pi_servo :=
  let drift_sum := s.drift_sum + offset * s.ki
  let drift_sum := if drift_sum > ADJ_SCALE then (ADJ_SCALE : Rat) else drift_sum
  let drift_sum := if drift_sum < -ADJ_SCALE then (-ADJ_SCALE : Rat) else drift_sum
  let adj := double_to_int64 (offset * s.kp + drift_sum)
  let adj := -adj
  ((adj : Rat) / (ADJ_SCALE : Rat), { s with drift_sum := drift_sum })

/-! ## `sja1105.c`: the Qbv engine -/

/-- The function `timespec_lower`. -/
def timespec_lower (lhs rhs : timespec) : Int :=
  if lhs.tv_sec = rhs.tv_sec then (if lhs.tv_nsec < rhs.tv_nsec then 1 else 0)
  else (if lhs.tv_sec < rhs.tv_sec then 1 else 0)

/-- The function `timespec_diff`. -/
def timespec_diff (start stop : timespec) : timespec :=
  if stop.tv_nsec - start.tv_nsec < 0 then
    ⟨stop.tv_sec - start.tv_sec - 1, stop.tv_nsec - start.tv_nsec + NS_PER_SEC⟩
  else ⟨stop.tv_sec - start.tv_sec, stop.tv_nsec - start.tv_nsec⟩

/-- The function `sja1105_qbv_stop`. -/
def sja1105_qbv_stop (env : sja1105_env) (t : sja1105_sync_timer) : sja1105_out :=
  if t.have_qbv = 0 then { ret := -1, t := t, events := [] }
  else if t.qbv_state = qbv_state.QBV_STATE_DISABLED then { ret := 0, t := t, events := [] }
  else if env.qbv_stop < 0 then
    { ret := -1, t := t, events := [sja1105_call.sja1105_ptp_qbv_stop] }
  else { ret := 0, t := t, events := [sja1105_call.sja1105_ptp_qbv_stop] }

/-- The start time `sja1105_qbv_start` computes from the switch time three
seconds ahead and the cycle length, both in the unit of
`sja1105_timespec_to_ptp_time`: the line
`qbv_start_time_ns = (1 + ptpclk_now_ns / qbv_cycle_len_ns) * qbv_cycle_len_ns`. -/
def qbv_start_time_ns (ptpclk_now_ns qbv_cycle_len_ns : Int) : Int :=
  u64 ((1 + ptpclk_now_ns / qbv_cycle_len_ns) * qbv_cycle_len_ns)

/-- The function `sja1105_qbv_start`; `none` when the cycle length is zero and
the division is undefined. -/
def sja1105_qbv_start (env : sja1105_env) (t : sja1105_sync_timer) : Option sja1105_out :=
  if t.have_qbv = 0 then some { ret := -1, t := t, events := [] }
  else
    match env.ptp_clk_get with
    | none => some { ret := -1, t := t, events := [sja1105_call.sja1105_ptp_clk_get] }
    | some ptpclk_now =>
      let ptpclk_now := { ptpclk_now with tv_sec := ptpclk_now.tv_sec + 3 }
      let ptpclk_now_ns := u64 (env.timespec_to_ptp_time ptpclk_now)
      let qbv_cycle_len_ns := u64 (env.timespec_to_ptp_time t.qbv_cycle_len)
      if qbv_cycle_len_ns = 0 then none
      else
        let t := { t with qbv_start_time :=
          env.ptp_time_to_timespec (qbv_start_time_ns ptpclk_now_ns qbv_cycle_len_ns) }
        let ev1 := [sja1105_call.sja1105_ptp_clk_get,
          sja1105_call.sja1105_ptp_qbv_start_time_set t.qbv_start_time]
        if env.qbv_start_time_set < 0 then some { ret := -1, t := t, events := ev1 }
        else
          let ev2 := ev1 ++ [sja1105_call.sja1105_ptp_qbv_correction_period_set t.qbv_cycle_len]
          if env.qbv_correction_period_set < 0 then some { ret := -1, t := t, events := ev2 }
          else
            let ev3 := ev2 ++ [sja1105_call.sja1105_ptp_qbv_start]
            if env.qbv_start < 0 then some { ret := -1, t := t, events := ev3 }
            else some { ret := 0, t := t, events := ev3 }

/-- The function `sja1105_qbv_monitor`; `none` when `sja1105_qbv_start` is
undefined. -/
def sja1105_qbv_monitor (env : sja1105_env) (t : sja1105_sync_timer) (_delay offset : Int) :
    Option sja1105_out :=
  if t.have_qbv = 0 then some { ret := -1, t := t, events := [] }
  else
    match t.qbv_state with
    | qbv_state.QBV_STATE_DISABLED =>
      if t.reset_req ≠ 0 then some { ret := 0, t := t, events := [] }
      else if offset ≤ -(Int.tdiv t.max_offset 2) ∨ offset ≥ Int.tdiv t.max_offset 2 then
        some { ret := 0, t := t, events := [] }
      else
        match sja1105_qbv_start env t with
        | none => none
        | some r =>
          if r.ret < 0 then some { ret := -1, t := r.t, events := r.events }
          else
            some { ret := 0,
                   t := { r.t with qbv_state := qbv_state.QBV_STATE_ENABLED_NOT_RUNNING },
                   events := r.events }
    | qbv_state.QBV_STATE_ENABLED_NOT_RUNNING =>
      if t.reset_req ≠ 0 then
        some { ret := 0, t := { t with qbv_state := qbv_state.QBV_STATE_DISABLED },
               events := (sja1105_qbv_stop env t).events }
      else
        match env.ptp_clk_get with
        | none => some { ret := -1, t := t, events := [sja1105_call.sja1105_ptp_clk_get] }
        | some ptpclk =>
          if timespec_lower ptpclk t.qbv_start_time ≠ 0 then
            some { ret := 0, t := t, events := [sja1105_call.sja1105_ptp_clk_get] }
          else if env.qbv_running = 0 then
            some { ret := 0, t := { t with qbv_state := qbv_state.QBV_STATE_RUNNING },
                   events := [sja1105_call.sja1105_ptp_clk_get,
                              sja1105_call.sja1105_ptp_qbv_running] }
          else
            some { ret := 0, t := { t with qbv_state := qbv_state.QBV_STATE_DISABLED },
                   events := [sja1105_call.sja1105_ptp_clk_get,
                              sja1105_call.sja1105_ptp_qbv_running] }
    | qbv_state.QBV_STATE_RUNNING =>
      if t.reset_req ≠ 0 then
        some { ret := 0, t := { t with qbv_state := qbv_state.QBV_STATE_DISABLED },
               events := (sja1105_qbv_stop env t).events }
      else if env.qbv_running ≠ 0 then
        some { ret := 0, t := { t with qbv_state := qbv_state.QBV_STATE_DISABLED },
               events := [sja1105_call.sja1105_ptp_qbv_running] }
      else
        match env.ptp_clk_get with
        | none =>
          some { ret := -1, t := t,
                 events := [sja1105_call.sja1105_ptp_qbv_running,
                            sja1105_call.sja1105_ptp_clk_get] }
        | some _ =>
          some { ret := 0, t := t,
                 events := [sja1105_call.sja1105_ptp_qbv_running,
                            sja1105_call.sja1105_ptp_clk_get] }

/-! ## `sja1105.c`: the tick (`sja1105_sync`) -/

/-- State of `sja1105_sync` after the block `if (t->reset_req)`: `ret` is the
value the function has returned there, `none` when it goes on; `delay` and
`offset` are its locals. -/
structure sja1105_reset_out where
  ret : Option Int
  t : sja1105_sync_timer
  delay : Int
  offset : Int
  events : List sja1105_call
deriving DecidableEq

/-- The block `if (t->reset_req)` of `sja1105_sync`, the reset sequence. -/
def sja1105_sync_reset (env : sja1105_env) (t : sja1105_sync_timer) (clkid : Int)
    (delay offset : Int) : sja1105_reset_out :=
  if t.reset_req = 0 then
    { ret := none, t := t, delay := delay, offset := offset, events := [] }
  else
    let ev0 := [sja1105_call.sja1105_ptp_reset]
    if env.ptp_reset ≠ 0 then
      { ret := some (-1), t := t, delay := delay, offset := offset, events := ev0 }
    else
      let t := { t with ratio := 1 }
      let ev1 := ev0 ++ [sja1105_call.sja1105_ptp_clk_rate_set t.ratio]
      if env.clk_rate_set_reset ≠ 0 then
        { ret := some (-1), t := t, delay := delay, offset := offset, events := ev1 }
      else
        let ev2 := ev1 ++ [sja1105_call.clock_gettime clkid]
        match env.gettime with
        | none =>
          { ret := some (-1), t := t, delay := delay, offset := offset, events := ev2 }
        | some cur_t =>
          let cur_t := { cur_t with tv_sec := cur_t.tv_sec - 1 }
          let ev3 := ev2 ++ [sja1105_call.sja1105_ptp_clk_set cur_t]
          if env.clk_set < 0 then
            { ret := some (-1), t := t, delay := delay, offset := offset, events := ev3 }
          else
            let m := sja1105_calculate env.calc_reset delay offset
            if m.ret ≠ 0 then
              { ret := some (-1), t := t, delay := m.delay, offset := m.offset,
                events := ev3 }
            else if m.offset > 0 then
              { ret := some (-1), t := t, delay := m.delay, offset := m.offset,
                events := ev3 }
            else
              let offset_ts : timespec :=
                ⟨Int.tdiv (-m.offset) NS_PER_SEC, Int.tmod (-m.offset) NS_PER_SEC⟩
              let ev4 := ev3 ++ [sja1105_call.sja1105_ptp_clk_add offset_ts]
              if env.clk_add < 0 then
                { ret := some (-1), t := t, delay := m.delay, offset := m.offset,
                  events := ev4 }
              else
                { ret := none,
                  t := { t with sync_pi_s := { t.sync_pi_s with drift_sum := 0 } },
                  delay := m.delay, offset := m.offset, events := ev4 }

/-- The part of `sja1105_sync` after the block `if (t->reset_req)`; `none` when
`sja1105_qbv_start` is undefined. -/
def sja1105_sync_main (env : sja1105_env) (t : sja1105_sync_timer) (delay offset : Int) :
    Option sja1105_out :=
  let m := sja1105_calculate env.calc_sync delay offset
  if m.ret ≠ 0 then some { ret := -1, t := t, events := [] }
  else if m.offset ≥ t.max_offset ∨ m.offset ≤ -t.max_offset then
    if m.offset ≥ NS_PER_SEC ∨ m.offset ≤ -NS_PER_SEC then
      some { ret := 0, t := { t with reset_req := 1 }, events := [] }
    else some { ret := 0, t := t, events := [] }
  else
    let pi := sja1105_sync_run_pi_servo t.sync_pi_s m.offset
    let t := { t with sync_pi_s := pi.2, ratio := 1 + pi.1 }
    let ev := [sja1105_call.sja1105_ptp_clk_rate_set t.ratio]
    if env.clk_rate_set ≠ 0 then some { ret := -1, t := t, events := ev }
    else
      match sja1105_qbv_monitor env t m.delay m.offset with
      | none => none
      | some q =>
        some { ret := 0, t := { q.t with reset_req := 0 }, events := ev ++ q.events }

/-- The function `sja1105_sync`; `delay` and `offset` are the values its locals
hold at entry; `none` when `sja1105_qbv_start` is undefined. -/
def sja1105_sync (env : sja1105_env) (t : sja1105_sync_timer) (clkid : Int)
    (delay offset : Int) : Option sja1105_out :=
  let r := sja1105_sync_reset env t clkid delay offset
  match r.ret with
  | some rc => some { ret := rc, t := r.t, events := r.events }
  | none =>
    match sja1105_sync_main env r.t r.delay r.offset with
    | none => none
    | some o => some { ret := o.ret, t := o.t, events := r.events ++ o.events }

/-- The inputs of one tick: the answers of the environment, the host clock id,
and the values the locals `delay` and `offset` hold at entry. -/
structure sja1105_tick where
  env : sja1105_env
  clkid : Int
  delay : Int
  offset : Int

/-- The timer after a sequence of ticks; `none` when one of them is
undefined. -/
def sja1105_run_ticks : List sja1105_tick → sja1105_sync_timer → Option sja1105_sync_timer
  | [], t => some t
  | k :: rest, t =>
    match sja1105_sync k.env t k.clkid k.delay k.offset with
    | none => none
    | some o => sja1105_run_ticks rest o.t

/-! ## Example inputs -/

/-- Two readings for the examples: brackets of 300 ns and of 100 ns. -/
def example_triples : Nat → triple
  | 0 => { t_dst1 := ⟨1700000000, 1000⟩, t_src := ⟨1700000037, 1100⟩,
           t_dst2 := ⟨1700000000, 1300⟩ }
  | _ => { t_dst1 := ⟨1700000001, 2000⟩, t_src := ⟨1700000038, 2040⟩,
           t_dst2 := ⟨1700000001, 2100⟩ }

/-- The readings of `example_triples` as the environment of `read_phc`. -/
def example_reads (i : Nat) : reading := (example_triples i).toReading

/-- The events that adjust a clock or tell the sanity check of a step. -/
def Event.is_adjust {F : Type} : Event F → Bool
  | Event.clockadj_step _ _ => true
  | Event.clockcheck_step _ => true
  | Event.clockadj_set_freq _ _ => true
  | _ => false

/-- The events that request a kernel leap. -/
def Event.is_set_leap {F : Type} : Event F → Bool
  | Event.sysclk_set_leap _ => true
  | _ => false

/-- Header constants with the values of the Linux and linuxptp headers. -/
def example_consts : consts :=
  { CLOCK_REALTIME := 0, CLOCK_INVALID := -1, MANAGEMENT := 13, RESPONSE := 2,
    TLV_MANAGEMENT := 1, PORT_DATA_SET := 8196, TIME_PROPERTIES_DATA_SET := 8194,
    PS_MASTER := 6, PS_SLAVE := 9, PTP_TIMESCALE := 8, LEAP_61 := 1, LEAP_59 := 2 }

/-- A PHC: TAI timescale, a dynamic clock id. -/
def example_phc : clock :=
  { clkid := -29, sysoff_supported := 0, is_utc := 0,
    servo_state := servo_state.SERVO_LOCKED, source_label := label.phc,
    has_offset_stats := false, has_sanity_check := true }

/-- The wall clock: UTC timescale, `CLOCK_REALTIME`. -/
def example_sys : clock :=
  { clkid := 0, sysoff_supported := 0, is_utc := 1,
    servo_state := servo_state.SERVO_LOCKED, source_label := label.sys,
    has_offset_stats := false, has_sanity_check := true }

/-- A second PHC. -/
def example_phc2 : clock := { example_phc with clkid := -37 }

/-- The wall clock as a slave whose servo is unlocked: the next update steps it. -/
def example_sys_unlocked : clock :=
  { example_sys with servo_state := servo_state.SERVO_UNLOCKED }

/-- A node with a PHC master, UTC offset 37 from the management channel, no
leap pending and no management client left open. -/
def example_node : node :=
  { stats_max_count := 0, phc_readings := 2, sync_offset := 37, forced_sync_offset := 0,
    leap := 0, leap_set := 0, kernel_leap := 1, has_pmc := false, pmc_ds_requested := 0,
    pmc_last_update := 0, master := example_phc }

/-- The node of `example_node` with a leap second announced. -/
def example_node_leap : node := { example_node with leap := 1 }

/-- A tick at wall time 1700000000 s: PPS edge 1234 ns after the second, a
servo that answers `SERVO_JUMP`, no leap second in sight. -/
def example_env : Env Int :=
  { K := example_consts,
    pps_fetch := some (1700000000, 1234),
    phc_reads := example_reads,
    realtime := some ⟨1700000000, 5000⟩,
    polls := [],
    leap_second_status := fun _ leap_set leap utc_offset => (leap_set, leap, utc_offset),
    master_gettime := some ⟨1700000000, 6000⟩,
    is_utc_ambiguous := fun ts =>
      if 86399 * 1000000000 ≤ ts % (86400 * 1000000000) then 1 else 0,
    clockcheck_sample := fun _ => 0,
    servo_sample := fun _ offset _ => (offset / 8, servo_state.SERVO_JUMP) }

/-- A PHC estimate that puts the PPS edge 11 ms after a second of the PHC. -/
def example_reads_11ms (_ : Nat) : reading :=
  { tdst1 := some ⟨1700000001, 2000⟩, tsrc := some ⟨1700000038, 10999950⟩,
    tdst2 := some ⟨1700000001, 2100⟩ }

/-- A PHC estimate that puts the PPS edge 1 ms before a second of the PHC. -/
def example_reads_999ms (_ : Nat) : reading :=
  { tdst1 := some ⟨1700000001, 2000⟩, tsrc := some ⟨1700000037, 998999950⟩,
    tdst2 := some ⟨1700000001, 2100⟩ }

/-- The tick of `example_env` with the PHC estimate of `example_reads_11ms`. -/
def example_env_11ms : Env Int := { example_env with phc_reads := example_reads_11ms }

/-- The tick of `example_env` with the PHC estimate of `example_reads_999ms`. -/
def example_env_999ms : Env Int := { example_env with phc_reads := example_reads_999ms }

/-- Locals of `do_pps_loop` before the first iteration. -/
def example_vars : pps_vars :=
  { pps_offset := 0, phc_offset := 0, phc_delay := 0, pps_ts := 0, phc_ts := 0, do_leap := 0 }

/-- A management response with the time properties data set: UTC offset 37, no
flag set (an arbitrary timescale, no leap second announced). -/
def example_tds_arb : ptp_message :=
  { msg_type := 13, action := 2, tlv_count := 1, tlv_type := 1, mgt_id := 8194,
    portState := 0, currentUtcOffset := 37, flags := 0 }

/-- The response of `example_tds_arb` with the flags `PTP_TIMESCALE` and
`LEAP_61`. -/
def example_tds_leap61 : ptp_message := { example_tds_arb with flags := 9 }

/-- A node with an open management client that has not yet learnt the UTC
offset. -/
def example_node_pmc : node := { example_node with sync_offset := 0, has_pmc := true }

/-- A tick in which the management client sends its request in the first round
of `poll` and receives `example_tds_arb` in the second. -/
def example_env_arb : Env Int :=
  { example_env with
    polls := [⟨1, true, false, none⟩, ⟨1, false, true, some example_tds_arb⟩] }

/-- The tick of `example_env_arb` with the response `example_tds_leap61`. -/
def example_env_leap61 : Env Int :=
  { example_env with
    polls := [⟨1, true, false, none⟩, ⟨1, false, true, some example_tds_leap61⟩] }

/-- A PHC estimate taken 50 microseconds after the PPS edge of `example_env`
with the PHC 5 ns behind the wall clock. -/
def example_reads_5ns (_ : Nat) : reading :=
  { tdst1 := some ⟨1700000000, 50000⟩, tsrc := some ⟨1700000000, 50045⟩,
    tdst2 := some ⟨1700000000, 50100⟩ }

/-- The tick of `example_env` with the PHC estimate of `example_reads_5ns`. -/
def example_env_5ns : Env Int := { example_env with phc_reads := example_reads_5ns }

/-- The node of `example_node` with master and slave on one timescale. -/
def example_node_same_scale : node := { example_node with sync_offset := 0 }

/-- Readings of `sja1105_calculate` with a host bracket of 200 ns and the switch
clock read as `t2` in its middle: the measured offset is `t2` minus
1700000000 s 1100 ns. -/
def example_sja1105_reads (t2 : timespec) (_ : Nat) : sja1105_reading :=
  { t1 := some ⟨1700000000, 1000⟩, t2 := some t2, t3 := some ⟨1700000000, 1200⟩ }

/-- A switch of which all calls succeed: the switch clock reads 1700000000 s
exactly and is measured 100 ns ahead of the host, the Qbv engine runs, and
PTP time counts nanoseconds. -/
def example_sja1105_env : sja1105_env :=
  { ptp_reset := 0, clk_rate_set_reset := 0,
    gettime := some ⟨1700000000, 500⟩, clk_set := 0,
    calc_reset := example_sja1105_reads ⟨1699999999, 2000⟩,
    clk_add := 0,
    calc_sync := example_sja1105_reads ⟨1700000000, 1200⟩,
    clk_rate_set := 0,
    ptp_clk_get := some ⟨1700000000, 0⟩,
    qbv_running := 0, qbv_stop := 0, qbv_start_time_set := 0,
    qbv_correction_period_set := 0, qbv_start := 0,
    timespec_to_ptp_time := fun ts => ts.tv_sec * 1000000000 + ts.tv_nsec,
    ptp_time_to_timespec := fun v => ⟨v / 1000000000, v % 1000000000⟩ }

/-- The switch of `example_sja1105_env` measured 1.2 s ahead of the host. -/
def example_sja1105_env_far : sja1105_env :=
  { example_sja1105_env with calc_sync := example_sja1105_reads ⟨1700000001, 200001100⟩ }

/-- The switch of `example_sja1105_env` with PTP time counted in ticks of 8 ns. -/
def example_sja1105_env_ticks : sja1105_env :=
  { example_sja1105_env with
    timespec_to_ptp_time := fun ts => (ts.tv_sec * 1000000000 + ts.tv_nsec) / 8,
    ptp_time_to_timespec := fun v => ⟨v * 8 / 1000000000, v * 8 % 1000000000⟩ }

/-- The switch of `example_sja1105_env` with the Qbv engine reported as not
running. -/
def example_sja1105_env_stopped : sja1105_env := { example_sja1105_env with qbv_running := 1 }

/-- A timer in regular operation: threshold 1 ms, no reset pending, a Qbv cycle
of 1 s, the engine disabled. -/
def example_timer : sja1105_sync_timer :=
  { fd := 5, valid := 1, max_offset := 1000000, reset_req := 0, ratio := 1,
    sync_pi_s := { kp := 1, ki := 1 / 2, drift_sum := 0 },
    have_qbv := 1, qbv_cycle_len := ⟨1, 0⟩, qbv_start_time := ⟨0, 0⟩,
    qbv_state := qbv_state.QBV_STATE_DISABLED }

/-- The timer of `example_timer` with a reset requested. -/
def example_timer_reset : sja1105_sync_timer :=
  { example_timer with
    reset_req := 1, ratio := 3 / 2, sync_pi_s := { kp := 1, ki := 1 / 2, drift_sum := 40 } }

/-- The timer of `example_timer` with the Qbv engine running. -/
def example_timer_running : sja1105_sync_timer :=
  { example_timer with
    qbv_state := qbv_state.QBV_STATE_RUNNING, qbv_start_time := ⟨1699999000, 0⟩ }

/-- The timer of `example_timer` with the Qbv engine started and not yet
running. -/
def example_timer_enabled : sja1105_sync_timer :=
  { example_timer with
    qbv_state := qbv_state.QBV_STATE_ENABLED_NOT_RUNNING, qbv_start_time := ⟨1699999000, 0⟩ }

/-- What the tick of `example_sja1105_env` returns from `example_timer`: the
servo has run and the Qbv engine is started. -/
def example_sja1105_out : sja1105_out :=
  { ret := 0,
    t := { example_timer with
           ratio := 199997 / 200000,
           sync_pi_s := { kp := 1, ki := 1 / 2, drift_sum := 50 },
           qbv_start_time := ⟨1700000004, 0⟩,
           qbv_state := qbv_state.QBV_STATE_ENABLED_NOT_RUNNING },
    events := [sja1105_call.sja1105_ptp_clk_rate_set (199997 / 200000),
               sja1105_call.sja1105_ptp_clk_get,
               sja1105_call.sja1105_ptp_qbv_start_time_set ⟨1700000004, 0⟩,
               sja1105_call.sja1105_ptp_qbv_correction_period_set ⟨1, 0⟩,
               sja1105_call.sja1105_ptp_qbv_start] }

/-! ## Theorems -/

/-! ### Machine integers -/

theorem u64_eq_self {x : Int} (h0 : 0 ≤ x) (h1 : x < 18446744073709551616) : u64 x = x := by
  unfold u64; omega

theorem i64_eq_self {x : Int} (h0 : -9223372036854775808 ≤ x)
    (h1 : x < 9223372036854775808) : i64 x = x := by
  unfold i64; omega

theorem timespec.valid_ns_bounds {t : timespec} (h : t.valid) :
    0 ≤ t.ns ∧ t.ns < 4294967296000000000 := by
  unfold timespec.valid at h
  unfold timespec.ns
  omega

/-! ### `read_phc` -/

/-- The loop of `read_phc` over successful readings: it returns 1, and either no
remaining interval is below `best` and the outputs are unchanged, or the outputs
are those of the first remaining reading of least interval. -/
theorem read_phc_loop_ok (reads : Nat → reading) (rs : Nat → triple) (k : Nat) :
    ∀ (i : Nat) (best off ts del : Int),
      (∀ j, i ≤ j → j < i + k → reads j = (rs j).toReading) →
      ((∀ j, i ≤ j → j < i + k → best ≤ (rs j).interval) ∧
        read_phc_loop reads k i best off ts del =
          { ret := 1, offset := off, ts := ts, delay := best }) ∨
      (∃ m, i ≤ m ∧ m < i + k ∧ (rs m).interval < best ∧
        (∀ j, i ≤ j → j < i + k → (rs m).interval ≤ (rs j).interval) ∧
        (∀ j, i ≤ j → j < m → (rs m).interval < (rs j).interval) ∧
        read_phc_loop reads k i best off ts del =
          { ret := 1, offset := (rs m).estimate, ts := u64 (rs m).t_dst2.ns,
            delay := (rs m).interval }) := by
  induction k with
  | zero =>
    intro i best off ts del _
    left
    refine ⟨fun j h1 h2 => by omega, ?_⟩
    simp [read_phc_loop]
  | succ k ih =>
    intro i best off ts del hok
    have hi := hok i (Nat.le_refl i) (by omega)
    have hrest : ∀ j, i + 1 ≤ j → j < i + 1 + k → reads j = (rs j).toReading :=
      fun j h1 h2 => hok j (by omega) (by omega)
    have hint : ((rs i).t_dst2.tv_sec - (rs i).t_dst1.tv_sec) * NS_PER_SEC +
        (rs i).t_dst2.tv_nsec - (rs i).t_dst1.tv_nsec = (rs i).interval := by
      unfold triple.interval timespec.ns NS_PER_SEC; ring
    have hest : ((rs i).t_dst1.tv_sec - (rs i).t_src.tv_sec) * NS_PER_SEC +
        (rs i).t_dst1.tv_nsec - (rs i).t_src.tv_nsec + Int.tdiv (rs i).interval 2 =
        (rs i).estimate := by
      unfold triple.estimate timespec.ns NS_PER_SEC; ring
    have hts : (rs i).t_dst2.tv_sec * NS_PER_SEC + (rs i).t_dst2.tv_nsec =
        (rs i).t_dst2.ns := by
      unfold timespec.ns NS_PER_SEC; ring
    have hstep : read_phc_loop reads (k + 1) i best off ts del =
        if best > (rs i).interval then
          read_phc_loop reads k (i + 1) (rs i).interval (rs i).estimate
            (u64 (rs i).t_dst2.ns) del
        else read_phc_loop reads k (i + 1) best off ts del := by
      rw [read_phc_loop, hi]
      simp only [triple.toReading, hint, hest, hts]
    rw [hstep]
    by_cases hb : best > (rs i).interval
    · rw [if_pos hb]
      rcases ih (i + 1) (rs i).interval (rs i).estimate (u64 (rs i).t_dst2.ns) del hrest with
        ⟨hall, heq⟩ | ⟨m, hm1, hm2, hm3, hm4, hm5, heq⟩
      · right
        refine ⟨i, Nat.le_refl i, by omega, hb, ?_, fun j h1 h2 => by omega, heq⟩
        intro j h1 h2
        rcases Nat.eq_or_lt_of_le h1 with h | h
        · subst h; exact le_refl _
        · exact hall j h (by omega)
      · right
        refine ⟨m, by omega, by omega, lt_trans hm3 hb, ?_, ?_, heq⟩
        · intro j h1 h2
          rcases Nat.eq_or_lt_of_le h1 with h | h
          · subst h; exact le_of_lt hm3
          · exact hm4 j h (by omega)
        · intro j h1 h2
          rcases Nat.eq_or_lt_of_le h1 with h | h
          · subst h; exact hm3
          · exact hm5 j h h2
    · rw [if_neg hb]
      have hb' : best ≤ (rs i).interval := not_lt.mp hb
      rcases ih (i + 1) best off ts del hrest with
        ⟨hall, heq⟩ | ⟨m, hm1, hm2, hm3, hm4, hm5, heq⟩
      · left
        refine ⟨?_, heq⟩
        intro j h1 h2
        rcases Nat.eq_or_lt_of_le h1 with h | h
        · subst h; exact hb'
        · exact hall j h (by omega)
      · right
        refine ⟨m, by omega, by omega, hm3, ?_, ?_, heq⟩
        · intro j h1 h2
          rcases Nat.eq_or_lt_of_le h1 with h | h
          · subst h; exact le_of_lt (lt_of_lt_of_le hm3 hb')
          · exact hm4 j h (by omega)
        · intro j h1 h2
          rcases Nat.eq_or_lt_of_le h1 with h | h
          · subst h; exact lt_of_lt_of_le hm3 hb'
          · exact hm5 j h h2

/-- The interval of a valid triple is below the initial `best_interval`. -/
theorem triple.valid_interval_lt {r : triple} (h : r.valid) : r.interval < INT64_MAX := by
  obtain ⟨h1, _, h2⟩ := h
  have b1 := timespec.valid_ns_bounds h1
  have b2 := timespec.valid_ns_bounds h2
  unfold triple.interval INT64_MAX
  omega

/-- Over `N ≥ 1` successful valid readings `read_phc` returns the outputs of the
first reading of least interval. -/
theorem read_phc_first_min (reads : Nat → reading) (rs : Nat → triple) (N : Nat)
    (off ts del : Int) (hN : 1 ≤ N)
    (hok : ∀ i, i < N → reads i = (rs i).toReading)
    (hv : ∀ i, i < N → (rs i).valid) :
    ∃ k, k < N ∧ (∀ j, j < N → (rs k).interval ≤ (rs j).interval) ∧
      (∀ j, j < k → (rs k).interval < (rs j).interval) ∧
      read_phc reads (N : Int) off ts del =
        { ret := 1, offset := (rs k).estimate, ts := (rs k).t_dst2.ns,
          delay := (rs k).interval } := by
  have h := read_phc_loop_ok reads rs N 0 INT64_MAX off ts del
    (fun j _ h2 => hok j (by omega))
  unfold read_phc
  rw [Int.toNat_ofNat]
  rcases h with ⟨hall, _⟩ | ⟨m, _, hm2, _, hm4, hm5, heq⟩
  · exfalso
    have h0 := hall 0 (Nat.le_refl 0) (by omega)
    have h1 := triple.valid_interval_lt (hv 0 (by omega))
    omega
  · refine ⟨m, by omega, fun j hj => hm4 j (Nat.zero_le j) (by omega),
      fun j hj => hm5 j (Nat.zero_le j) hj, ?_⟩
    rw [heq]
    have hb := timespec.valid_ns_bounds (hv m (by omega)).2.2
    rw [u64_eq_self hb.1 (by omega)]

/-- C1: for every reading count `N ≥ 1` and every sequence of `N` successful
reading triples (each a valid clock reading), `read_phc` returns 1 with the
values of the earliest iteration `k` of smallest interval: the offset is
`t_dst1 - t_src + interval / 2`, the timestamp is `t_dst2` in nanoseconds and
the delay is that interval, the minimum of all `N` intervals. -/
theorem read_phc_selects_smallest_interval (reads : Nat → reading) (rs : Nat → triple)
    (N : Nat) (off ts del : Int) (hN : 1 ≤ N)
    (hok : ∀ i, i < N → reads i = (rs i).toReading)
    (hv : ∀ i, i < N → (rs i).valid) :
    ∃ k, k < N ∧
      (∀ j, j < N → (rs k).t_dst2.ns - (rs k).t_dst1.ns ≤ (rs j).t_dst2.ns - (rs j).t_dst1.ns) ∧
      (∀ j, j < k → (rs k).t_dst2.ns - (rs k).t_dst1.ns < (rs j).t_dst2.ns - (rs j).t_dst1.ns) ∧
      read_phc reads (N : Int) off ts del =
        { ret := 1,
          offset := (rs k).t_dst1.ns - (rs k).t_src.ns +
            Int.tdiv ((rs k).t_dst2.ns - (rs k).t_dst1.ns) 2,
          ts := (rs k).t_dst2.ns,
          delay := (rs k).t_dst2.ns - (rs k).t_dst1.ns } :=
  read_phc_first_min reads rs N off ts del hN hok hv

theorem read_phc_selects_smallest_interval_witness :
    ∃ k, k < 2 ∧
      (∀ j, j < 2 → (example_triples k).t_dst2.ns - (example_triples k).t_dst1.ns ≤
        (example_triples j).t_dst2.ns - (example_triples j).t_dst1.ns) ∧
      (∀ j, j < k → (example_triples k).t_dst2.ns - (example_triples k).t_dst1.ns <
        (example_triples j).t_dst2.ns - (example_triples j).t_dst1.ns) ∧
      read_phc example_reads ((2 : Nat) : Int) 0 0 0 =
        { ret := 1,
          offset := (example_triples k).t_dst1.ns - (example_triples k).t_src.ns +
            Int.tdiv ((example_triples k).t_dst2.ns - (example_triples k).t_dst1.ns) 2,
          ts := (example_triples k).t_dst2.ns,
          delay := (example_triples k).t_dst2.ns - (example_triples k).t_dst1.ns } :=
  read_phc_selects_smallest_interval example_reads example_triples 2 0 0 0 (by decide)
    (fun _ _ => rfl) (by intro i hi; interval_cases i <;> decide)

/-- C2: for `N ≥ 1` readings of synthetic clocks that differ by the constant `C`
with jitter bounded by `J` (every bracket has `t_dst1 ≤ t_dst2 ≤ t_dst1 + 2J`
and the source reading shifted by `C` lies inside it), `read_phc` succeeds with
`|offset - C| ≤ J` and `delay ≥ 0`. -/
theorem read_phc_offset_within_jitter (reads : Nat → reading) (rs : Nat → triple)
    (N : Nat) (off ts del C J : Int) (hN : 1 ≤ N)
    (hok : ∀ i, i < N → reads i = (rs i).toReading)
    (hv : ∀ i, i < N → (rs i).valid)
    (hj : ∀ i, i < N → (rs i).t_dst1.ns ≤ (rs i).t_dst2.ns ∧
      (rs i).t_dst2.ns ≤ (rs i).t_dst1.ns + 2 * J)
    (hc : ∀ i, i < N → (rs i).t_dst1.ns ≤ (rs i).t_src.ns + C ∧
      (rs i).t_src.ns + C ≤ (rs i).t_dst2.ns) :
    (read_phc reads (N : Int) off ts del).ret = 1 ∧
    |(read_phc reads (N : Int) off ts del).offset - C| ≤ J ∧
    0 ≤ (read_phc reads (N : Int) off ts del).delay := by
  obtain ⟨k, hk, _, _, heq⟩ := read_phc_first_min reads rs N off ts del hN hok hv
  rw [heq]
  obtain ⟨hj1, hj2⟩ := hj k hk
  obtain ⟨hc1, hc2⟩ := hc k hk
  have hi : 0 ≤ (rs k).interval := by unfold triple.interval; omega
  have hd : Int.tdiv (rs k).interval 2 = (rs k).interval / 2 :=
    Int.tdiv_eq_ediv hi (by decide)
  refine ⟨rfl, ?_, hi⟩
  show |(rs k).estimate - C| ≤ J
  unfold triple.estimate
  rw [hd, abs_le]
  unfold triple.interval at *
  omega

theorem read_phc_offset_within_jitter_witness :
    (read_phc example_reads ((2 : Nat) : Int) 0 0 0).ret = 1 ∧
    |(read_phc example_reads ((2 : Nat) : Int) 0 0 0).offset - (-37000000000)| ≤ 150 ∧
    0 ≤ (read_phc example_reads ((2 : Nat) : Int) 0 0 0).delay :=
  read_phc_offset_within_jitter example_reads example_triples 2 0 0 0 (-37000000000) 150
    (by decide) (fun _ _ => rfl) (by intro i hi; interval_cases i <;> decide)
    (by intro i hi; interval_cases i <;> decide)
    (by intro i hi; interval_cases i <;> decide)

/-! ### `read_pps` -/

/-- C3, counterexample: an assert edge exactly half a second after a second
boundary has `ts_ns mod 10^9 = 5 * 10^8`, yet the residual is not folded: it is
`+5 * 10^8`, outside `[-5 * 10^8, 5 * 10^8)`. -/
theorem read_pps_half_second_not_folded :
    (read_pps (some (0, 500000000)) 0 0).ts % 1000000000 ≥ 500000000 ∧
    (read_pps (some (0, 500000000)) 0 0).offset = 500000000 ∧
    ¬ ((read_pps (some (0, 500000000)) 0 0).offset < 500000000) ∧
    (read_pps (some (0, 500000000)) 0 0).offset ≠
      (read_pps (some (0, 500000000)) 0 0).ts % 1000000000 - 1000000000 := by
  decide

/-- C3, amended: for every PPS assert timestamp `(sec, nsec)` with `sec ≥ 0`,
`0 ≤ nsec < 10^9` and `sec * 10^9 + nsec` representable in the `uint64_t`,
`read_pps` returns `ts_ns = sec * 10^9 + nsec` and a residual congruent to
`ts_ns` modulo `10^9` in the range `(-5 * 10^8, 5 * 10^8]`: it is
`ts_ns mod 10^9` when that is at most `5 * 10^8` and `ts_ns mod 10^9 - 10^9`
when it is above. -/
theorem read_pps_residual (sec nsec off ts : Int) (hsec : 0 ≤ sec) (hn0 : 0 ≤ nsec)
    (hn1 : nsec < 1000000000) (hfit : sec * 1000000000 + nsec < 18446744073709551616) :
    (read_pps (some (sec, nsec)) off ts).ret = 1 ∧
    (read_pps (some (sec, nsec)) off ts).ts = sec * 1000000000 + nsec ∧
    ((read_pps (some (sec, nsec)) off ts).offset - (sec * 1000000000 + nsec)) % 1000000000 = 0 ∧
    -500000000 < (read_pps (some (sec, nsec)) off ts).offset ∧
    (read_pps (some (sec, nsec)) off ts).offset ≤ 500000000 ∧
    ((sec * 1000000000 + nsec) % 1000000000 ≤ 500000000 →
      (read_pps (some (sec, nsec)) off ts).offset = (sec * 1000000000 + nsec) % 1000000000) ∧
    ((sec * 1000000000 + nsec) % 1000000000 > 500000000 →
      (read_pps (some (sec, nsec)) off ts).offset =
        (sec * 1000000000 + nsec) % 1000000000 - 1000000000) := by
  have h1 : u64 (sec * NS_PER_SEC) = sec * 1000000000 := by
    unfold NS_PER_SEC; exact u64_eq_self (by omega) (by omega)
  have h2 : u64 (sec * 1000000000 + nsec) = sec * 1000000000 + nsec :=
    u64_eq_self (by omega) hfit
  have hdiv : NS_PER_SEC / 2 = 500000000 := by decide
  simp only [read_pps, h1, h2, hdiv]
  unfold NS_PER_SEC
  refine ⟨trivial, trivial, ?_, ?_, ?_, ?_, ?_⟩ <;> split <;> omega

theorem read_pps_residual_witness :
    (read_pps (some (1700000000, 999999000)) 0 0).ret = 1 ∧
    (read_pps (some (1700000000, 999999000)) 0 0).ts = 1700000000 * 1000000000 + 999999000 ∧
    ((read_pps (some (1700000000, 999999000)) 0 0).offset -
      (1700000000 * 1000000000 + 999999000)) % 1000000000 = 0 ∧
    -500000000 < (read_pps (some (1700000000, 999999000)) 0 0).offset ∧
    (read_pps (some (1700000000, 999999000)) 0 0).offset ≤ 500000000 ∧
    (((1700000000 : Int) * 1000000000 + 999999000) % 1000000000 ≤ 500000000 →
      (read_pps (some (1700000000, 999999000)) 0 0).offset =
        (1700000000 * 1000000000 + 999999000) % 1000000000) ∧
    (((1700000000 : Int) * 1000000000 + 999999000) % 1000000000 > 500000000 →
      (read_pps (some (1700000000, 999999000)) 0 0).offset =
        (1700000000 * 1000000000 + 999999000) % 1000000000 - 1000000000) :=
  read_pps_residual 1700000000 999999000 0 0 (by decide) (by decide) (by decide) (by decide)

/-! ### PPS loop: rejection of samples -/

/-- C4, counterexample: a PHC timestamp 1 ms before an exact second boundary,
well within 10 ms of it, is rejected. -/
theorem pps_rejected_1ms_before_second :
    phc_time
      (read_phc example_reads_999ms 2 0 0 0).ts
      (read_phc example_reads_999ms 2 0 0 0).offset + 1000000 = 1700000038 * 1000000000 ∧
    (do_pps_loop_body example_env_999ms
      example_node example_sys example_vars).map (fun it => (it.outcome, it.events)) =
      some (pps_exit.rejected, [Event.pr_warning_pps_not_in_sync 999000000]) := by
  decide

/-- C4, amended: in PPS mode with a PHC master, for every PPS sample and every
successful PHC estimate `(phc_offset, ts)`, the sample is rejected if and only
if `phc_ts mod 1 s`, the time by which `phc_ts = ts - phc_offset` (as a
`uint64_t`) is past the start of its second, exceeds 10 ms.  A rejected sample
leaves node and clock as they were and makes no call but the warning; a sample
that is not rejected goes on to the leap coordinator. -/
theorem pps_rejected_iff_past_limit {F : Type} [Neg F] (env : Env F) (n : node)
    (c : clock) (v : pps_vars)
    (hpps : (read_pps env.pps_fetch v.pps_offset v.pps_ts).ret ≠ 0)
    (hsrc : n.master.clkid ≠ env.K.CLOCK_INVALID)
    (hphc : (read_phc env.phc_reads n.phc_readings v.phc_offset v.phc_ts v.phc_delay).ret ≠ 0) :
    ((∃ it, do_pps_loop_body env n c v = some it ∧ it.outcome = pps_exit.rejected) ↔
      phc_time (read_phc env.phc_reads n.phc_readings v.phc_offset v.phc_ts v.phc_delay).ts
        (read_phc env.phc_reads n.phc_readings v.phc_offset v.phc_ts v.phc_delay).offset
          % 1000000000 > 10000000) ∧
    (∀ it, do_pps_loop_body env n c v = some it → it.outcome = pps_exit.rejected →
      it.node = n ∧ it.clock = c ∧
      it.events = [Event.pr_warning_pps_not_in_sync
        (phc_time (read_phc env.phc_reads n.phc_readings v.phc_offset v.phc_ts v.phc_delay).ts
          (read_phc env.phc_reads n.phc_readings v.phc_offset v.phc_ts v.phc_delay).offset
            % 1000000000)]) ∧
    (∀ it, do_pps_loop_body env n c v = some it → it.outcome ≠ pps_exit.rejected →
      ∃ s rest, update_sync_offset env n = some s ∧ it.events = s.events ++ rest) ∧
    (∀ s, update_sync_offset env n = some s →
      ∃ it, do_pps_loop_body env n c v = some it) := by
  have hN : NS_PER_SEC = 1000000000 := rfl
  have hL : PHC_PPS_OFFSET_LIMIT = 10000000 := rfl
  by_cases hfrac : phc_time
      (read_phc env.phc_reads n.phc_readings v.phc_offset v.phc_ts v.phc_delay).ts
      (read_phc env.phc_reads n.phc_readings v.phc_offset v.phc_ts v.phc_delay).offset
        % 1000000000 > 10000000
  · have hbody : do_pps_loop_body env n c v = some
        { outcome := pps_exit.rejected, node := n, clock := c,
          vars := { v with
            pps_offset := (read_pps env.pps_fetch v.pps_offset v.pps_ts).offset,
            pps_ts := (read_pps env.pps_fetch v.pps_offset v.pps_ts).ts,
            phc_offset :=
              (read_phc env.phc_reads n.phc_readings v.phc_offset v.phc_ts v.phc_delay).offset,
            phc_delay :=
              (read_phc env.phc_reads n.phc_readings v.phc_offset v.phc_ts v.phc_delay).delay,
            phc_ts := phc_time
              (read_phc env.phc_reads n.phc_readings v.phc_offset v.phc_ts v.phc_delay).ts
              (read_phc env.phc_reads n.phc_readings v.phc_offset v.phc_ts v.phc_delay).offset },
          events := [Event.pr_warning_pps_not_in_sync (phc_time
            (read_phc env.phc_reads n.phc_readings v.phc_offset v.phc_ts v.phc_delay).ts
            (read_phc env.phc_reads n.phc_readings v.phc_offset v.phc_ts v.phc_delay).offset
              % 1000000000)] } := by
      simp [do_pps_loop_body, hpps, hsrc, hphc, hN, hL, hfrac]
    refine ⟨⟨fun _ => hfrac, fun _ => ⟨_, hbody, rfl⟩⟩, ?_, ?_, fun _ _ => ⟨_, hbody⟩⟩
    · intro it hit _
      rw [hbody] at hit
      cases hit
      exact ⟨rfl, rfl, rfl⟩
    · intro it hit hne
      rw [hbody] at hit
      cases hit
      exact absurd rfl hne
  · have hfrac' : ¬ (10000000 < phc_time
        (read_phc env.phc_reads n.phc_readings v.phc_offset v.phc_ts v.phc_delay).ts
        (read_phc env.phc_reads n.phc_readings v.phc_offset v.phc_ts v.phc_delay).offset
          % 1000000000) := hfrac
    have hcases : ∀ it, do_pps_loop_body env n c v = some it →
        it.outcome ≠ pps_exit.rejected ∧
        ∃ s rest, update_sync_offset env n = some s ∧ it.events = s.events ++ rest := by
      intro it hit
      simp only [do_pps_loop_body, hpps, hsrc, hphc, hN, hL, hfrac', if_false, ne_eq,
        not_false_eq_true, if_true, gt_iff_lt] at hit
      cases hs : update_sync_offset env n with
      | none => simp [hs] at hit
      | some s =>
        simp only [hs] at hit
        by_cases hneg : s.ret < 0
        · simp only [hneg, if_true, Option.some.injEq] at hit
          subst hit
          exact ⟨by simp, s, [], rfl, by simp⟩
        · simp only [hneg, if_false, Option.some.injEq] at hit
          subst hit
          exact ⟨by simp, s, _, rfl, rfl⟩
    refine ⟨⟨fun ⟨it, hit, hrej⟩ => absurd hrej (hcases it hit).1, fun h => absurd h hfrac⟩,
      ?_, ?_, ?_⟩
    · intro it hit hrej
      exact absurd hrej (hcases it hit).1
    · intro it hit _
      exact (hcases it hit).2
    · intro s hs
      simp only [do_pps_loop_body, hpps, hsrc, hphc, hN, hL, hfrac', if_false, ne_eq,
        not_false_eq_true, if_true, gt_iff_lt, hs]
      by_cases hneg : s.ret < 0
      · simp [hneg]
      · simp [hneg]

theorem pps_rejected_iff_past_limit_witness :
    ((∃ it, do_pps_loop_body example_env_11ms example_node example_sys example_vars = some it ∧
        it.outcome = pps_exit.rejected) ↔
      phc_time
        (read_phc example_env_11ms.phc_reads example_node.phc_readings
          example_vars.phc_offset example_vars.phc_ts example_vars.phc_delay).ts
        (read_phc example_env_11ms.phc_reads example_node.phc_readings
          example_vars.phc_offset example_vars.phc_ts example_vars.phc_delay).offset
          % 1000000000 > 10000000) ∧
    phc_time
        (read_phc example_env_11ms.phc_reads example_node.phc_readings
          example_vars.phc_offset example_vars.phc_ts example_vars.phc_delay).ts
        (read_phc example_env_11ms.phc_reads example_node.phc_readings
          example_vars.phc_offset example_vars.phc_ts example_vars.phc_delay).offset
          % 1000000000 = 11000000 :=
  ⟨(pps_rejected_iff_past_limit example_env_11ms example_node example_sys example_vars
    (by decide) (by decide) (by decide)).1, by decide⟩

/-! ### The leap gate and the sync offset -/

theorem clock_handle_leap_tail_state {F : Type} (env : Env F) (n : node) (c : clock)
    (offset ts do_leap : Int) (evs : List (Event F)) :
    (clock_handle_leap_tail env n c offset ts do_leap evs).node = n ∧
    (clock_handle_leap_tail env n c offset ts do_leap evs).clock = c := by
  unfold clock_handle_leap_tail
  dsimp only
  split_ifs <;> exact ⟨rfl, rfl⟩

theorem clock_handle_leap_tail_no_adjust {F : Type} (env : Env F) (n : node) (c : clock)
    (offset ts do_leap : Int) (evs : List (Event F))
    (hevs : evs.filter Event.is_adjust = []) :
    (clock_handle_leap_tail env n c offset ts do_leap evs).events.filter
      Event.is_adjust = [] := by
  unfold clock_handle_leap_tail
  dsimp only
  split_ifs <;> simp [Event.is_adjust, hevs]

/-- The leap gate writes neither to the node nor to the clock. -/
theorem clock_handle_leap_state {F : Type} (env : Env F) (n : node) (c : clock)
    (offset ts do_leap : Int) :
    (clock_handle_leap env n c offset ts do_leap).node = n ∧
    (clock_handle_leap env n c offset ts do_leap).clock = c := by
  unfold clock_handle_leap
  split_ifs
  · exact ⟨rfl, rfl⟩
  · exact ⟨rfl, rfl⟩
  · cases env.master_gettime with
    | none => exact ⟨rfl, rfl⟩
    | some tp => exact clock_handle_leap_tail_state env n c offset _ do_leap _
  · exact clock_handle_leap_tail_state env n c offset _ do_leap _

/-- No call of the leap gate adjusts a clock. -/
theorem clock_handle_leap_no_adjust {F : Type} (env : Env F) (n : node) (c : clock)
    (offset ts do_leap : Int) :
    (clock_handle_leap env n c offset ts do_leap).events.filter Event.is_adjust = [] := by
  unfold clock_handle_leap
  split_ifs
  · rfl
  · rfl
  · cases env.master_gettime with
    | none => simp [Event.is_adjust]
    | some tp =>
      exact clock_handle_leap_tail_no_adjust env n c offset _ do_leap _
        (by simp [Event.is_adjust])
  · exact clock_handle_leap_tail_no_adjust env n c offset _ do_leap _ rfl

/-- After a passed leap gate `update_clock` samples the servo with the measured
offset plus the sync offset. -/
theorem update_clock_servo_sample {F : Type} [Neg F] (env : Env F) (n : node) (c : clock)
    (offset ts delay do_leap : Int)
    (hgate : (clock_handle_leap env n c offset ts do_leap).ret = 0) :
    Event.servo_sample (offset + get_sync_offset n c) ts ∈
      (update_clock env n c offset ts delay do_leap).events := by
  obtain ⟨h1, h2⟩ := clock_handle_leap_state env n c offset ts do_leap
  simp [update_clock, hgate, h1, h2]

/-- C5: `get_sync_offset` returns `sync_offset * 10^9 * direction`, where the
direction is `slave.is_utc - master.is_utc` when the offset was not forced and
the override direction otherwise, which the option `-O` sets to -1.  With a
PHC master (`is_utc = 0`), the wall clock as slave (`is_utc = 1`),
`sync_offset = 37` and no override the value is `+37 * 10^9`, and that is what
`update_clock` adds to the measured offset before it samples the servo. -/
theorem get_sync_offset_sign_convention {F : Type} [Neg F] (env : Env F) (n : node)
    (dst : clock) (val offset ts delay do_leap : Int) :
    get_sync_offset n dst = n.sync_offset * 1000000000 *
      (if n.forced_sync_offset = 0 then dst.is_utc - n.master.is_utc
       else n.forced_sync_offset) ∧
    (main_case_O n val).forced_sync_offset = -1 ∧
    (main_case_O n val).sync_offset = val ∧
    (n.forced_sync_offset = 0 → n.master.is_utc = 0 → dst.is_utc = 1 →
      n.sync_offset = 37 →
      get_sync_offset n dst = 37000000000 ∧
      ((clock_handle_leap env n dst offset ts do_leap).ret = 0 →
        Event.servo_sample (offset + 37000000000) ts ∈
          (update_clock env n dst offset ts delay do_leap).events)) := by
  refine ⟨?_, rfl, rfl, ?_⟩
  · unfold get_sync_offset NS_PER_SEC
    by_cases h : n.forced_sync_offset = 0 <;> simp [h]
  · intro hf hm hd hs
    have hg : get_sync_offset n dst = 37000000000 := by
      unfold get_sync_offset NS_PER_SEC
      simp [hf, hm, hd, hs]
    refine ⟨hg, fun hgate => ?_⟩
    have := update_clock_servo_sample env n dst offset ts delay do_leap hgate
    rwa [hg] at this

theorem get_sync_offset_sign_convention_witness :
    get_sync_offset example_node example_sys = 37000000000 ∧
    ((clock_handle_leap example_env example_node example_sys 1000 1700000000000001234 0).ret = 0 →
      Event.servo_sample (1000 + 37000000000) 1700000000000001234 ∈
        (update_clock example_env example_node example_sys 1000 1700000000000001234 50 0).events) :=
  (get_sync_offset_sign_convention example_env example_node example_sys 0 1000
    1700000000000001234 50 0).2.2.2 (by decide) (by decide) (by decide) (by decide)

/-- C6, counterexample: between two PHCs an offset of 37 s forced with `-O`
gives the sync offset `-37 * 10^9`, not 0, and the servo is sampled with the
measured offset shifted by it. -/
theorem get_sync_offset_forced_between_phcs :
    (main_case_O example_node 37).master.is_utc = 0 ∧ example_phc2.is_utc = 0 ∧
    get_sync_offset (main_case_O example_node 37) example_phc2 = -37000000000 ∧
    Event.servo_sample (1000 - 37000000000) 1700000000000001234 ∈
      (update_clock example_env (main_case_O example_node 37) example_phc2 1000
        1700000000000001234 50 0).events := by
  decide

/-- C6, amended: when both master and slave are PHCs (`is_utc = 0` for both),
for every node state `get_sync_offset` returns
`sync_offset * 10^9 * forced_sync_offset`; this is 0 when the offset was not
forced on the command line, and then the servo is sampled with the measured
offset, and it is `-val * 10^9` after the option `-O val`.  In every node state `clock_handle_leap` returns 0 with no clock read,
no kernel leap request and no change of state. -/
theorem phc_pair_sync_offset_and_leap {F : Type} [Neg F] (env : Env F) (n : node)
    (c : clock) (offset ts delay do_leap val : Int)
    (hm : n.master.is_utc = 0) (hc : c.is_utc = 0) :
    get_sync_offset n c = n.sync_offset * 1000000000 * n.forced_sync_offset ∧
    get_sync_offset (main_case_O n val) c = -(val * 1000000000) ∧
    (n.forced_sync_offset = 0 →
      get_sync_offset n c = 0 ∧
      Event.servo_sample offset ts ∈ (update_clock env n c offset ts delay do_leap).events) ∧
    clock_handle_leap env n c offset ts do_leap =
      { ret := 0, node := n, clock := c, events := [] } := by
  have hgate : clock_handle_leap env n c offset ts do_leap =
      { ret := 0, node := n, clock := c, events := [] } := by
    unfold clock_handle_leap
    simp [hm, hc]
  have hg : get_sync_offset n c = n.sync_offset * 1000000000 * n.forced_sync_offset := by
    unfold get_sync_offset NS_PER_SEC
    by_cases h : n.forced_sync_offset = 0 <;> simp [h, hm, hc]
  have hO : get_sync_offset (main_case_O n val) c = -(val * 1000000000) := by
    unfold get_sync_offset main_case_O NS_PER_SEC
    simp
  refine ⟨hg, hO, fun hf => ?_, hgate⟩
  have h0 : get_sync_offset n c = 0 := by rw [hg, hf]; simp
  refine ⟨h0, ?_⟩
  have := update_clock_servo_sample env n c offset ts delay do_leap (by rw [hgate])
  rwa [h0, add_zero] at this

theorem phc_pair_sync_offset_and_leap_witness :
    get_sync_offset example_node_leap example_phc2 =
      example_node_leap.sync_offset * 1000000000 * example_node_leap.forced_sync_offset ∧
    get_sync_offset (main_case_O example_node_leap 37) example_phc2 = -(37 * 1000000000) ∧
    (example_node_leap.forced_sync_offset = 0 →
      get_sync_offset example_node_leap example_phc2 = 0 ∧
      Event.servo_sample 1000 1700000000000001234 ∈
        (update_clock example_env example_node_leap example_phc2 1000
          1700000000000001234 50 1).events) ∧
    clock_handle_leap example_env example_node_leap example_phc2 1000 1700000000000001234 1 =
      { ret := 0, node := example_node_leap, clock := example_phc2, events := [] } :=
  phc_pair_sync_offset_and_leap example_env example_node_leap example_phc2 1000
    1700000000000001234 50 1 37 (by decide) (by decide)

/-! ### `update_clock` -/

/-- C7: for every update that passes the leap gate, with `offset'` the measured
offset plus `get_sync_offset` and `(ppb, state)` the answer of the servo to
`(offset', ts)`, the clock adjustments of `update_clock` are determined by the
state: `SERVO_UNLOCKED` gives no step and no `set_freq`; `SERVO_JUMP` gives one
step by `-offset'`, the notice of that step to the sanity check when there is
one, then `set_freq(-ppb)`; `SERVO_LOCKED` gives `set_freq(-ppb)` only.  The
servo state of the clock is set to the returned state. -/
theorem update_clock_adjustments {F : Type} [Neg F] (env : Env F) (n : node) (c : clock)
    (offset ts delay do_leap : Int) (ppb : F) (state : servo_state)
    (hgate : (clock_handle_leap env n c offset ts do_leap).ret = 0)
    (hservo : env.servo_sample (c.has_sanity_check && decide (env.clockcheck_sample ts ≠ 0))
      (offset + get_sync_offset n c) ts = (ppb, state)) :
    Event.servo_sample (offset + get_sync_offset n c) ts ∈
      (update_clock env n c offset ts delay do_leap).events ∧
    (update_clock env n c offset ts delay do_leap).clock = { c with servo_state := state } ∧
    (state = servo_state.SERVO_UNLOCKED →
      (update_clock env n c offset ts delay do_leap).events.filter Event.is_adjust = []) ∧
    (state = servo_state.SERVO_JUMP →
      (update_clock env n c offset ts delay do_leap).events.filter Event.is_adjust =
        [Event.clockadj_step c.clkid (-(offset + get_sync_offset n c))] ++
        (if c.has_sanity_check then
           [Event.clockcheck_step (-(offset + get_sync_offset n c))] else []) ++
        [Event.clockadj_set_freq c.clkid (-ppb)]) ∧
    (state = servo_state.SERVO_LOCKED →
      (update_clock env n c offset ts delay do_leap).events.filter Event.is_adjust =
        [Event.clockadj_set_freq c.clkid (-ppb)]) := by
  obtain ⟨h1, h2⟩ := clock_handle_leap_state env n c offset ts do_leap
  have h3 := clock_handle_leap_no_adjust env n c offset ts do_leap
  have hev : (update_clock env n c offset ts delay do_leap).events.filter Event.is_adjust =
      (switch_events env c (offset + get_sync_offset n c) ppb state).filter
        Event.is_adjust := by
    unfold update_clock
    simp only [hgate, h1, h2, hservo, ne_eq, not_true_eq_false, if_false, List.filter_append,
      h3, List.nil_append]
    cases hsc : c.has_sanity_check <;>
      by_cases hc : env.clockcheck_sample ts = 0 <;>
      cases hos : c.has_offset_stats <;>
      simp [Event.is_adjust, hc, hsc, hos, List.filter]
  refine ⟨update_clock_servo_sample env n c offset ts delay do_leap hgate, ?_, ?_, ?_, ?_⟩
  · unfold update_clock
    simp only [hgate, h1, h2, hservo, ne_eq, not_true_eq_false, if_false]
  · intro hst
    rw [hev, hst]
    rfl
  · intro hst
    rw [hev, hst]
    cases hsc : c.has_sanity_check <;>
      by_cases hk : c.clkid = env.K.CLOCK_REALTIME <;>
      simp [switch_events, locked_events, Event.is_adjust, hk, hsc, List.filter]
  · intro hst
    rw [hev, hst]
    cases hsc : c.has_sanity_check <;>
      by_cases hk : c.clkid = env.K.CLOCK_REALTIME <;>
      simp [switch_events, locked_events, Event.is_adjust, hk, hsc, List.filter]

theorem update_clock_adjustments_witness :
    (update_clock example_env example_node example_sys (-37999998766)
        1700000000000001234 (-1) 0).events.filter Event.is_adjust =
      [Event.clockadj_step example_sys.clkid
        (-(-37999998766 + get_sync_offset example_node example_sys))] ++
      (if example_sys.has_sanity_check then
         [Event.clockcheck_step
           (-(-37999998766 + get_sync_offset example_node example_sys))] else []) ++
      [Event.clockadj_set_freq example_sys.clkid (-(-124999846))] :=
  (update_clock_adjustments example_env example_node example_sys (-37999998766)
    1700000000000001234 (-1) 0 (-124999846) servo_state.SERVO_JUMP (by decide)
    (by decide)).2.2.2.1 rfl

/-! ### The leap gate with a leap pending -/

/-- C8: for every call of the leap gate with a leap pending or due
(`leap ≠ 0` or `do_leap ≠ 0`), master and slave of different `is_utc`, and the
re-read of a wall-clock master, where needed, successful.  The evaluation
timestamp `ets` is spelled out: `base` is the reading `tp` of the master,
`tv_sec * 10^9 + tv_nsec` as a `uint64_t`, when the master is the wall clock,
and the timestamp `ts` passed in otherwise; `ets` is `base` moved to the target
of the step, `base - (offset + sync_offset * 10^9 * direction)` as a
`uint64_t`, when the slave is the wall clock and its servo is unlocked, and
`base` otherwise.  If `ets` is in the ambiguous second the gate returns non-zero
(1) and requests no kernel leap; otherwise it returns 0 and requests the kernel
leap `sysclk_set_leap(leap_set)` exactly when `do_leap` is set, the slave is
`CLOCK_REALTIME` and the kernel-leap policy is on.  Node and clock are left as
they were, and the calls are the re-read, if any, followed by the suspension
message or the kernel request. -/
theorem clock_handle_leap_pending {F : Type} (env : Env F) (n : node) (c : clock)
    (offset ts do_leap base ets : Int) (tp : timespec)
    (hleap : n.leap ≠ 0 ∨ do_leap ≠ 0)
    (hutc : c.is_utc ≠ n.master.is_utc)
    (hread : n.master.is_utc ≠ 0 → env.master_gettime = some tp)
    (hbase : base =
      if n.master.is_utc ≠ 0 then
        (tp.tv_sec * 1000000000 + tp.tv_nsec) % 18446744073709551616
      else ts)
    (hets : ets =
      if c.is_utc ≠ 0 ∧ c.servo_state = servo_state.SERVO_UNLOCKED then
        (base - (offset + n.sync_offset * 1000000000 *
          (if n.forced_sync_offset = 0 then c.is_utc - n.master.is_utc
           else n.forced_sync_offset))) % 18446744073709551616
      else base) :
    (env.is_utc_ambiguous ets ≠ 0 →
      (clock_handle_leap env n c offset ts do_leap).ret ≠ 0 ∧
      (clock_handle_leap env n c offset ts do_leap).events.filter Event.is_set_leap = [] ∧
      clock_handle_leap env n c offset ts do_leap =
        { ret := 1, node := n, clock := c,
          events := (if n.master.is_utc ≠ 0 then [Event.clock_gettime n.master.clkid] else [])
            ++ [Event.pr_info_suspended] }) ∧
    (env.is_utc_ambiguous ets = 0 →
      (clock_handle_leap env n c offset ts do_leap).ret = 0 ∧
      (clock_handle_leap env n c offset ts do_leap).events.filter Event.is_set_leap =
        (if do_leap ≠ 0 ∧ c.clkid = env.K.CLOCK_REALTIME ∧ n.kernel_leap ≠ 0 then
          [Event.sysclk_set_leap n.leap_set]
        else []) ∧
      clock_handle_leap env n c offset ts do_leap =
        { ret := 0, node := n, clock := c,
          events := (if n.master.is_utc ≠ 0 then [Event.clock_gettime n.master.clkid] else [])
            ++ (if do_leap ≠ 0 ∧ c.clkid = env.K.CLOCK_REALTIME ∧ n.kernel_leap ≠ 0 then
                  [Event.sysclk_set_leap n.leap_set]
                else []) }) := by
  have h0 : ¬ (n.leap = 0 ∧ do_leap = 0) := by
    rintro ⟨h1, h2⟩
    rcases hleap with h | h
    · exact h h1
    · exact h h2
  have hets' : ets = leap_target_ts n c offset
      (if n.master.is_utc ≠ 0 then u64 (tp.tv_sec * NS_PER_SEC + tp.tv_nsec) else ts) := by
    rw [hets, hbase]
    simp only [leap_target_ts, get_sync_offset, u64, NS_PER_SEC]
  have hstep : clock_handle_leap env n c offset ts do_leap =
      clock_handle_leap_tail env n c offset
        (if n.master.is_utc ≠ 0 then u64 (tp.tv_sec * NS_PER_SEC + tp.tv_nsec) else ts)
        do_leap (if n.master.is_utc ≠ 0 then [Event.clock_gettime n.master.clkid] else []) := by
    unfold clock_handle_leap
    rw [if_neg h0, if_neg hutc]
    by_cases hm : n.master.is_utc ≠ 0
    · rw [if_pos hm, if_pos hm, if_pos hm, hread hm]
    · rw [if_neg hm, if_neg hm, if_neg hm]
  have hevs : (if n.master.is_utc ≠ 0 then [Event.clock_gettime n.master.clkid]
      else ([] : List (Event F))).filter Event.is_set_leap = [] := by
    split_ifs <;> simp [Event.is_set_leap]
  rw [hstep]
  unfold clock_handle_leap_tail
  rw [← hets']
  dsimp only
  constructor
  · intro hamb
    rw [if_pos hamb]
    refine ⟨by simp, ?_, rfl⟩
    simp [hevs, Event.is_set_leap]
  · intro hamb
    have hamb' : ¬ env.is_utc_ambiguous ets ≠ 0 := not_not.mpr hamb
    rw [if_neg hamb']
    by_cases hk : do_leap ≠ 0 ∧ c.clkid = env.K.CLOCK_REALTIME ∧ n.kernel_leap ≠ 0
    · rw [if_pos hk, if_pos hk]
      refine ⟨rfl, ?_, rfl⟩
      simp [hevs, Event.is_set_leap]
    · rw [if_neg hk, if_neg hk]
      refine ⟨rfl, ?_, ?_⟩
      · simpa using hevs
      · simp

theorem clock_handle_leap_pending_witness :
    example_sys_unlocked.servo_state = servo_state.SERVO_UNLOCKED ∧
    example_env.is_utc_ambiguous 1700006436500001000 = 0 ∧
    example_env.is_utc_ambiguous 1700006399500000000 = 1 ∧
    ((clock_handle_leap example_env example_node_leap example_sys_unlocked 1000
        1700006436500001000 1).ret ≠ 0 ∧
      (clock_handle_leap example_env example_node_leap example_sys_unlocked 1000
        1700006436500001000 1).events.filter Event.is_set_leap = [] ∧
      clock_handle_leap example_env example_node_leap example_sys_unlocked 1000
          1700006436500001000 1 =
        { ret := 1, node := example_node_leap, clock := example_sys_unlocked,
          events := (if example_node_leap.master.is_utc ≠ 0 then
              [Event.clock_gettime example_node_leap.master.clkid] else [])
            ++ [Event.pr_info_suspended] }) ∧
    clock_handle_leap example_env example_node_leap example_sys 1000
        1700000000000001234 1 =
      { ret := 0, node := example_node_leap, clock := example_sys,
        events := [Event.sysclk_set_leap 0] } :=
  ⟨by decide, by decide, by decide,
   (clock_handle_leap_pending example_env example_node_leap example_sys_unlocked 1000
      1700006436500001000 1 1700006436500001000 1700006399500000000 ⟨0, 0⟩
      (by decide) (by decide) (by decide) (by decide) (by decide)).1 (by decide),
   by decide⟩

/-- C9: with no leap pending (`leap = 0`) and `do_leap = 0` the leap gate
returns 0, makes no call (it reads no clock) and leaves node and clock as they
were; a second call in the state it leaves returns 0 as well. -/
theorem clock_handle_leap_idle {F : Type} (env env2 : Env F) (n : node) (c : clock)
    (offset ts offset2 ts2 : Int) (hleap : n.leap = 0) :
    clock_handle_leap env n c offset ts 0 =
      { ret := 0, node := n, clock := c, events := [] } ∧
    clock_handle_leap env2 (clock_handle_leap env n c offset ts 0).node
        (clock_handle_leap env n c offset ts 0).clock offset2 ts2 0 =
      { ret := 0, node := n, clock := c, events := [] } := by
  have h : ∀ (e : Env F) (o t : Int), clock_handle_leap e n c o t 0 =
      { ret := 0, node := n, clock := c, events := [] } := by
    intro e o t
    simp [clock_handle_leap, hleap]
  rw [h env offset ts]
  exact ⟨rfl, h env2 offset2 ts2⟩

theorem clock_handle_leap_idle_witness :
    clock_handle_leap example_env example_node example_sys 1000 1700000000000001234 0 =
      { ret := 0, node := example_node, clock := example_sys, events := [] } ∧
    clock_handle_leap example_env
        (clock_handle_leap example_env example_node example_sys 1000
          1700000000000001234 0).node
        (clock_handle_leap example_env example_node example_sys 1000
          1700000000000001234 0).clock 1000 1700000000000001234 0 =
      { ret := 0, node := example_node, clock := example_sys, events := [] } :=
  clock_handle_leap_idle example_env example_env example_node example_sys 1000
    1700000000000001234 1000 1700000000000001234 (by decide)

/-! ### The leap-second coordinator -/

/-- The loop of `run_pmc` writes to no field of the node but `pmc_ds_requested`. -/
theorem run_pmc_node {F : Type} (K : consts) (ds_id : Int) (ps : List poll_step) :
    ∀ (n : node) (msg : Option ptp_message) (evs : List (Event F)) (r : pmc_out F),
      run_pmc K ds_id ps n msg evs = some r →
      { r.node with pmc_ds_requested := 0 } = { n with pmc_ds_requested := 0 } := by
  induction ps with
  | nil => intro n msg evs r h; simp [run_pmc] at h
  | cons p ps ih =>
    intro n msg evs r h
    unfold run_pmc at h
    dsimp only at h
    split_ifs at h <;>
    first
      | (cases h; rfl)
      | (have h' := ih _ _ _ _ h; simpa using h')
      | (split at h <;>
          first
            | (have h' := ih _ _ _ _ h; simpa using h')
            | (split_ifs at h <;>
                first
                  | (cases h; rfl)
                  | (have h' := ih _ _ _ _ h; simpa using h')))

/-- C11, counterexample: an accepted response without the `PTP_TIMESCALE` flag
and with `currentUtcOffset = 37` leaves `sync_offset` at its previous value 0. -/
theorem utc_offset_not_stored_without_ptp_timescale :
    (run_pmc_get_utc_offset example_env_arb example_node_pmc).map
      (fun q => (q.ret, q.node.sync_offset, q.node.leap)) = some (1, 0, 0) ∧
    example_tds_arb.currentUtcOffset = 37 ∧
    example_tds_arb.flags &&& example_env_arb.K.PTP_TIMESCALE = 0 := by
  decide

/-- C11, amended: for every accepted TIME_PROPERTIES_DATA_SET response `tds`
(`run_pmc` returns 1 with it), `run_pmc_get_utc_offset` returns 1, and it stores
`currentUtcOffset` as `sync_offset` and sets `leap` to +1 if `LEAP_61` is
flagged, to -1 if `LEAP_59` is flagged and `LEAP_61` is not, else to 0, if and
only if the flag `PTP_TIMESCALE` is set in the response; when it is not set,
`sync_offset` and `leap` keep their previous values. -/
theorem run_pmc_get_utc_offset_stores {F : Type} (env : Env F) (n : node) (r : pmc_out F)
    (tds : ptp_message)
    (hrun : run_pmc env.K env.K.TIME_PROPERTIES_DATA_SET env.polls n none [] = some r)
    (hret : r.ret = 1) (hmsg : r.msg = some tds) :
    ∃ q, run_pmc_get_utc_offset env n = some q ∧ q.ret = 1 ∧
      (tds.flags &&& env.K.PTP_TIMESCALE ≠ 0 →
        q.node.sync_offset = tds.currentUtcOffset ∧
        q.node.leap = (if tds.flags &&& env.K.LEAP_61 ≠ 0 then 1
                       else if tds.flags &&& env.K.LEAP_59 ≠ 0 then -1 else 0)) ∧
      (tds.flags &&& env.K.PTP_TIMESCALE = 0 →
        q.node.sync_offset = n.sync_offset ∧ q.node.leap = n.leap) := by
  have hnode := run_pmc_node env.K env.K.TIME_PROPERTIES_DATA_SET env.polls n none [] r hrun
  have hso : r.node.sync_offset = n.sync_offset := by
    have := congrArg node.sync_offset hnode
    exact this
  have hlp : r.node.leap = n.leap := by
    have := congrArg node.leap hnode
    exact this
  refine ⟨{ ret := 1, node := store_time_properties env.K r.node tds,
            events := r.events ++ [Event.msg_put] }, ?_, rfl, ?_, ?_⟩
  · unfold run_pmc_get_utc_offset
    rw [hrun]
    simp [hret, hmsg]
  · intro hf
    show (store_time_properties env.K r.node tds).sync_offset = _ ∧
      (store_time_properties env.K r.node tds).leap = _
    unfold store_time_properties
    rw [if_pos hf]
    exact ⟨rfl, rfl⟩
  · intro hf
    show (store_time_properties env.K r.node tds).sync_offset = _ ∧
      (store_time_properties env.K r.node tds).leap = _
    unfold store_time_properties
    rw [if_neg (not_not.mpr hf)]
    exact ⟨hso, hlp⟩

theorem run_pmc_get_utc_offset_stores_witness :
    ∃ q, run_pmc_get_utc_offset example_env_leap61 example_node_pmc = some q ∧ q.ret = 1 ∧
      (example_tds_leap61.flags &&& example_env_leap61.K.PTP_TIMESCALE ≠ 0 →
        q.node.sync_offset = example_tds_leap61.currentUtcOffset ∧
        q.node.leap =
          (if example_tds_leap61.flags &&& example_env_leap61.K.LEAP_61 ≠ 0 then 1
           else if example_tds_leap61.flags &&& example_env_leap61.K.LEAP_59 ≠ 0 then -1
           else 0)) ∧
      (example_tds_leap61.flags &&& example_env_leap61.K.PTP_TIMESCALE = 0 →
        q.node.sync_offset = example_node_pmc.sync_offset ∧
        q.node.leap = example_node_pmc.leap) :=
  run_pmc_get_utc_offset_stores example_env_leap61 example_node_pmc
    { ret := 1, node := example_node_pmc, msg := some example_tds_leap61,
      events := [Event.poll true, Event.pmc_send_get_action 8194, Event.poll false] }
    example_tds_leap61 (by decide) (by decide) (by decide)

/-! ### PPS loop: the whole seconds from the PHC -/

/-- The timestamp `read_pps` returns is a `uint64_t`. -/
theorem read_pps_ts_nonneg (fetch : Option (Int × Int)) (off ts : Int)
    (h : (read_pps fetch off ts).ret ≠ 0) : 0 ≤ (read_pps fetch off ts).ts := by
  cases fetch with
  | none => simp [read_pps] at h
  | some f =>
    obtain ⟨sec, nsec⟩ := f
    simp only [read_pps, u64]
    omega

/-- C18: in PPS mode with a PHC master, for every accepted sample (not
rejected, leap coordinator without error) with PPS timestamp `pps_ts` and PHC
estimate `(phc_offset, ts)`, the timestamps being representable in 63 bits, the
offset handed to `update_clock` is
`pps_ts - floor((ts - phc_offset) / 10^9) * 10^9` and the timestamp handed on
is `pps_ts`. -/
theorem pps_phc_integer_recovery {F : Type} [Neg F] (env : Env F) (n : node) (c : clock)
    (v : pps_vars) (s : node_out F) (pps_ts phc_offset ts : Int)
    (hpps : (read_pps env.pps_fetch v.pps_offset v.pps_ts).ret ≠ 0)
    (hsrc : n.master.clkid ≠ env.K.CLOCK_INVALID)
    (hphc : (read_phc env.phc_reads n.phc_readings v.phc_offset v.phc_ts v.phc_delay).ret ≠ 0)
    (hpt : pps_ts = (read_pps env.pps_fetch v.pps_offset v.pps_ts).ts)
    (hpo : phc_offset =
      (read_phc env.phc_reads n.phc_readings v.phc_offset v.phc_ts v.phc_delay).offset)
    (hts : ts = (read_phc env.phc_reads n.phc_readings v.phc_offset v.phc_ts v.phc_delay).ts)
    (hacc : (ts - phc_offset) % 1000000000 ≤ 10000000)
    (hs : update_sync_offset env n = some s) (hs0 : 0 ≤ s.ret)
    (h0 : 0 ≤ ts - phc_offset) (h1 : ts - phc_offset < 9223372036854775808)
    (h2 : pps_ts < 9223372036854775808) :
    ∃ it, do_pps_loop_body env n c v = some it ∧
      it.outcome = pps_exit.updated ∧
      it.vars.pps_offset = pps_ts - (ts - phc_offset) / 1000000000 * 1000000000 ∧
      it.vars.pps_ts = pps_ts ∧
      it.events = s.events ++
        (update_clock env s.node c
          (pps_ts - (ts - phc_offset) / 1000000000 * 1000000000) pps_ts (-1) s.ret).events ∧
      it.node = (update_clock env s.node c
          (pps_ts - (ts - phc_offset) / 1000000000 * 1000000000) pps_ts (-1) s.ret).node ∧
      it.clock = (update_clock env s.node c
          (pps_ts - (ts - phc_offset) / 1000000000 * 1000000000) pps_ts (-1) s.ret).clock := by
  have hN : NS_PER_SEC = 1000000000 := rfl
  have hL : PHC_PPS_OFFSET_LIMIT = 10000000 := rfl
  have hp0 : 0 ≤ pps_ts := by rw [hpt]; exact read_pps_ts_nonneg _ _ _ hpps
  have hphct : phc_time ts phc_offset = ts - phc_offset := by
    unfold phc_time; exact u64_eq_self h0 (by omega)
  have hacc' : ¬ (10000000 < (ts - phc_offset) % 1000000000) := by omega
  have hoff : i64 (u64 (pps_ts - (ts - phc_offset) / 1000000000 * 1000000000)) =
      pps_ts - (ts - phc_offset) / 1000000000 * 1000000000 := by
    unfold i64 u64; omega
  have hneg : ¬ s.ret < 0 := by omega
  have hbody : do_pps_loop_body env n c v = some
      { outcome := pps_exit.updated,
        node := (update_clock env s.node c
          (pps_ts - (ts - phc_offset) / 1000000000 * 1000000000) pps_ts (-1) s.ret).node,
        clock := (update_clock env s.node c
          (pps_ts - (ts - phc_offset) / 1000000000 * 1000000000) pps_ts (-1) s.ret).clock,
        vars :=
          { pps_offset := pps_ts - (ts - phc_offset) / 1000000000 * 1000000000,
            phc_offset := phc_offset,
            phc_delay :=
              (read_phc env.phc_reads n.phc_readings v.phc_offset v.phc_ts v.phc_delay).delay,
            pps_ts := pps_ts,
            phc_ts := (ts - phc_offset) / 1000000000 * 1000000000,
            do_leap := s.ret },
        events := s.events ++ (update_clock env s.node c
          (pps_ts - (ts - phc_offset) / 1000000000 * 1000000000) pps_ts (-1) s.ret).events } := by
    simp only [do_pps_loop_body, hpps, hsrc, hphc, if_false, ne_eq, not_false_eq_true,
      if_true]
    simp only [← hpt, ← hpo, ← hts]
    simp only [hN, hL, hphct, hacc', hs, hneg, hoff, if_false, gt_iff_lt]
  exact ⟨_, hbody, rfl, rfl, rfl, rfl, rfl, rfl⟩

theorem pps_phc_integer_recovery_witness :
    (∃ it, do_pps_loop_body example_env_5ns example_node_same_scale example_sys
        example_vars = some it ∧
      it.outcome = pps_exit.updated ∧
      it.vars.pps_offset =
        1700000000000001234 - (1700000000000050100 - 5) / 1000000000 * 1000000000 ∧
      it.vars.pps_ts = 1700000000000001234 ∧
      it.events = [Event.clock_gettime 0] ++
        (update_clock example_env_5ns example_node_same_scale example_sys
          (1700000000000001234 - (1700000000000050100 - 5) / 1000000000 * 1000000000)
          1700000000000001234 (-1) 0).events ∧
      it.node = (update_clock example_env_5ns example_node_same_scale example_sys
          (1700000000000001234 - (1700000000000050100 - 5) / 1000000000 * 1000000000)
          1700000000000001234 (-1) 0).node ∧
      it.clock = (update_clock example_env_5ns example_node_same_scale example_sys
          (1700000000000001234 - (1700000000000050100 - 5) / 1000000000 * 1000000000)
          1700000000000001234 (-1) 0).clock) ∧
    (1700000000000001234 - (1700000000000050100 - 5) / 1000000000 * 1000000000 : Int) = 1234 ∧
    ((1700000000000050100 - 5) / 1000000000 : Int) = 1700000000 ∧
    Event.servo_sample 1234 1700000000000001234 ∈
      (update_clock example_env_5ns example_node_same_scale example_sys 1234
        1700000000000001234 (-1) 0).events :=
  ⟨pps_phc_integer_recovery example_env_5ns example_node_same_scale example_sys example_vars
    { ret := 0, node := example_node_same_scale, events := [Event.clock_gettime 0] }
    1700000000000001234 5 1700000000000050100
    (by decide) (by decide) (by decide) (by decide) (by decide) (by decide) (by decide)
    (by decide) (by decide) (by decide) (by decide) (by decide),
   by decide, by decide, by decide⟩

/-! ### `sja1105.c`: what the Qbv functions leave alone -/

/-- The function `sja1105_qbv_start` writes to `qbv_start_time` only. -/
theorem sja1105_qbv_start_frame (env : sja1105_env) (t : sja1105_sync_timer)
    (r : sja1105_out) (h : sja1105_qbv_start env t = some r) :
    r.t = { t with qbv_start_time := r.t.qbv_start_time } := by
  unfold sja1105_qbv_start at h
  by_cases hq : t.have_qbv = 0
  · rw [if_pos hq] at h; cases h; rfl
  · rw [if_neg hq] at h
    cases hg : env.ptp_clk_get with
    | none => simp only [hg] at h; cases h; rfl
    | some now =>
      simp only [hg] at h
      split_ifs at h <;> (cases h; rfl)

/-- The function `sja1105_qbv_monitor` writes to `qbv_start_time` and
`qbv_state` only. -/
theorem sja1105_qbv_monitor_frame (env : sja1105_env) (t : sja1105_sync_timer)
    (delay offset : Int) (q : sja1105_out)
    (h : sja1105_qbv_monitor env t delay offset = some q) :
    q.t = { t with qbv_start_time := q.t.qbv_start_time, qbv_state := q.t.qbv_state } := by
  unfold sja1105_qbv_monitor at h
  by_cases hq : t.have_qbv = 0
  · rw [if_pos hq] at h; cases h; rfl
  · rw [if_neg hq] at h
    cases hs : t.qbv_state with
    | QBV_STATE_DISABLED =>
      simp only [hs] at h
      by_cases h1 : t.reset_req ≠ 0
      · rw [if_pos h1] at h; cases h; cases t; simp_all
      · rw [if_neg h1] at h
        by_cases h2 : offset ≤ -(Int.tdiv t.max_offset 2) ∨ offset ≥ Int.tdiv t.max_offset 2
        · rw [if_pos h2] at h; cases h; cases t; simp_all
        · rw [if_neg h2] at h
          cases hr : sja1105_qbv_start env t with
          | none => simp [hr] at h
          | some r =>
            have hf := sja1105_qbv_start_frame env t r hr
            simp only [hr] at h
            split_ifs at h
            · cases h; rw [hf]
            · cases h; rw [hf]
    | QBV_STATE_ENABLED_NOT_RUNNING =>
      simp only [hs] at h
      by_cases h1 : t.reset_req ≠ 0
      · rw [if_pos h1] at h; cases h; rfl
      · rw [if_neg h1] at h
        cases hg : env.ptp_clk_get with
        | none => simp only [hg] at h; cases h; cases t; simp_all
        | some now =>
          simp only [hg] at h
          split_ifs at h
          · cases h; cases t; simp_all
          · cases h; rfl
          · cases h; rfl
    | QBV_STATE_RUNNING =>
      simp only [hs] at h
      by_cases h1 : t.reset_req ≠ 0
      · rw [if_pos h1] at h; cases h; rfl
      · rw [if_neg h1] at h
        by_cases h2 : env.qbv_running ≠ 0
        · rw [if_pos h2] at h; cases h; rfl
        · rw [if_neg h2] at h
          cases hg : env.ptp_clk_get with
          | none => simp only [hg] at h; cases h; cases t; simp_all
          | some now => simp only [hg] at h; cases h; cases t; simp_all

/-! ### `sja1105.c`: the drift integrator -/

/-- After `sja1105_sync_run_pi_servo` the integrator is within `ADJ_SCALE`. -/
theorem sja1105_sync_run_pi_servo_bound (s : sja1105_sync_pi_servo) (offset : Int) :
    -10000000 ≤ (sja1105_sync_run_pi_servo s offset).2.drift_sum ∧
    (sja1105_sync_run_pi_servo s offset).2.drift_sum ≤ 10000000 := by
  unfold sja1105_sync_run_pi_servo ADJ_SCALE
  dsimp only
  push_cast
  split_ifs <;> constructor <;> linarith

/-- Without a reset request the reset sequence does nothing. -/
theorem sja1105_sync_reset_skip (env : sja1105_env) (t : sja1105_sync_timer)
    (clkid delay offset : Int) (h : t.reset_req = 0) :
    sja1105_sync_reset env t clkid delay offset =
      { ret := none, t := t, delay := delay, offset := offset, events := [] } := by
  unfold sja1105_sync_reset
  rw [if_pos h]

/-- The reset sequence writes to `ratio` and the integrator only; the integrator
keeps its value or becomes 0, and it is 0 when a requested reset sequence runs
to its end. -/
theorem sja1105_sync_reset_frame (env : sja1105_env) (t : sja1105_sync_timer)
    (clkid delay offset : Int) :
    (sja1105_sync_reset env t clkid delay offset).t =
      { t with
        ratio := (sja1105_sync_reset env t clkid delay offset).t.ratio,
        sync_pi_s := { t.sync_pi_s with
          drift_sum := (sja1105_sync_reset env t clkid delay offset).t.sync_pi_s.drift_sum } } ∧
    ((sja1105_sync_reset env t clkid delay offset).t.sync_pi_s.drift_sum =
        t.sync_pi_s.drift_sum ∨
      (sja1105_sync_reset env t clkid delay offset).t.sync_pi_s.drift_sum = 0) ∧
    (t.reset_req ≠ 0 → (sja1105_sync_reset env t clkid delay offset).ret = none →
      (sja1105_sync_reset env t clkid delay offset).t.sync_pi_s.drift_sum = 0) := by
  refine ⟨?_, ?_, ?_⟩
  · cases hg : env.gettime <;>
      simp only [sja1105_sync_reset, hg] <;>
      split_ifs <;> rfl
  · cases hg : env.gettime <;>
      simp only [sja1105_sync_reset, hg] <;>
      split_ifs <;> simp
  · intro hr
    cases hg : env.gettime <;>
      simp only [sja1105_sync_reset, hg, if_neg hr] <;>
      split_ifs <;> simp

/-- After the main part of a tick the PI state is the old one or the one
`sja1105_sync_run_pi_servo` left. -/
theorem sja1105_sync_main_pi (env : sja1105_env) (t : sja1105_sync_timer)
    (delay offset : Int) (r : sja1105_out)
    (h : sja1105_sync_main env t delay offset = some r) :
    r.t.sync_pi_s = t.sync_pi_s ∨
    r.t.sync_pi_s = (sja1105_sync_run_pi_servo t.sync_pi_s
      (sja1105_calculate env.calc_sync delay offset).offset).2 := by
  unfold sja1105_sync_main at h
  dsimp only at h
  split_ifs at h
  · cases h; left; rfl
  · cases h; left; rfl
  · cases h; left; rfl
  · cases h; right; rfl
  · split at h
    · simp at h
    · rename_i q hq
      have hf := sja1105_qbv_monitor_frame env _ _ _ q hq
      cases h
      right
      show q.t.sync_pi_s = _
      rw [hf]

/-- A tick keeps the integrator within `ADJ_SCALE`. -/
theorem sja1105_sync_drift_bound (env : sja1105_env) (t : sja1105_sync_timer)
    (clkid delay offset : Int) (o : sja1105_out)
    (hb : -10000000 ≤ t.sync_pi_s.drift_sum ∧ t.sync_pi_s.drift_sum ≤ 10000000)
    (h : sja1105_sync env t clkid delay offset = some o) :
    -10000000 ≤ o.t.sync_pi_s.drift_sum ∧ o.t.sync_pi_s.drift_sum ≤ 10000000 := by
  have hr : -10000000 ≤ (sja1105_sync_reset env t clkid delay offset).t.sync_pi_s.drift_sum ∧
      (sja1105_sync_reset env t clkid delay offset).t.sync_pi_s.drift_sum ≤ 10000000 := by
    rcases (sja1105_sync_reset_frame env t clkid delay offset).2.1 with h1 | h1
    · rw [h1]; exact hb
    · rw [h1]; constructor <;> norm_num
  unfold sja1105_sync at h
  dsimp only at h
  split at h
  · cases h; exact hr
  · split at h
    · simp at h
    · rename_i m hm
      cases h
      rcases sja1105_sync_main_pi env _ _ _ m hm with h1 | h1
      · show -10000000 ≤ m.t.sync_pi_s.drift_sum ∧ m.t.sync_pi_s.drift_sum ≤ 10000000
        rw [h1]; exact hr
      · show -10000000 ≤ m.t.sync_pi_s.drift_sum ∧ m.t.sync_pi_s.drift_sum ≤ 10000000
        rw [h1]; exact sja1105_sync_run_pi_servo_bound _ _

/-- Every sequence of ticks keeps the integrator within `ADJ_SCALE`. -/
theorem sja1105_run_ticks_drift_bound (ticks : List sja1105_tick) :
    ∀ (t t' : sja1105_sync_timer),
      (-10000000 ≤ t.sync_pi_s.drift_sum ∧ t.sync_pi_s.drift_sum ≤ 10000000) →
      sja1105_run_ticks ticks t = some t' →
      -10000000 ≤ t'.sync_pi_s.drift_sum ∧ t'.sync_pi_s.drift_sum ≤ 10000000 := by
  induction ticks with
  | nil =>
    intro t t' hb h
    simp only [sja1105_run_ticks, Option.some.injEq] at h
    subst h
    exact hb
  | cons k rest ih =>
    intro t t' hb h
    unfold sja1105_run_ticks at h
    split at h
    · simp at h
    · rename_i o ho
      exact ih o.t t' (sja1105_sync_drift_bound k.env t k.clkid k.delay k.offset o hb ho) h

/-- C12: for every starting value of the integrator, every gain `ki` and every
offset, after `sja1105_sync_run_pi_servo(offset)` the integrator `drift_sum` is
in `[-10^7, 10^7]` (over exact rationals); a reset sequence that runs to its
end sets it to 0; so a tick keeps the bound, and it holds in every state
reached by a sequence of ticks from an integrator of 0. -/
theorem sja1105_drift_sum_bounded (s : sja1105_sync_pi_servo) (offset : Int)
    (env : sja1105_env) (t : sja1105_sync_timer) (clkid delay0 offset0 : Int)
    (ticks : List sja1105_tick) :
    (-10000000 ≤ (sja1105_sync_run_pi_servo s offset).2.drift_sum ∧
      (sja1105_sync_run_pi_servo s offset).2.drift_sum ≤ 10000000) ∧
    (t.reset_req ≠ 0 → (sja1105_sync_reset env t clkid delay0 offset0).ret = none →
      (sja1105_sync_reset env t clkid delay0 offset0).t.sync_pi_s.drift_sum = 0) ∧
    (-10000000 ≤ t.sync_pi_s.drift_sum ∧ t.sync_pi_s.drift_sum ≤ 10000000 →
      ∀ o, sja1105_sync env t clkid delay0 offset0 = some o →
        -10000000 ≤ o.t.sync_pi_s.drift_sum ∧ o.t.sync_pi_s.drift_sum ≤ 10000000) ∧
    (t.sync_pi_s.drift_sum = 0 →
      ∀ t', sja1105_run_ticks ticks t = some t' →
        -10000000 ≤ t'.sync_pi_s.drift_sum ∧ t'.sync_pi_s.drift_sum ≤ 10000000) := by
  refine ⟨sja1105_sync_run_pi_servo_bound s offset,
    (sja1105_sync_reset_frame env t clkid delay0 offset0).2.2,
    fun hb o ho => sja1105_sync_drift_bound env t clkid delay0 offset0 o hb ho,
    fun h0 t' ht => sja1105_run_ticks_drift_bound ticks t t' ?_ ht⟩
  rw [h0]
  constructor <;> norm_num

theorem sja1105_drift_sum_bounded_witness :
    sja1105_sync example_sja1105_env example_timer 0 0 0 = some example_sja1105_out ∧
    -10000000 ≤ example_sja1105_out.t.sync_pi_s.drift_sum ∧
    example_sja1105_out.t.sync_pi_s.drift_sum ≤ 10000000 :=
  ⟨by decide!,
   (sja1105_drift_sum_bounded example_timer.sync_pi_s 100 example_sja1105_env example_timer
      0 0 0 []).2.2.1 (by decide!) example_sja1105_out (by decide!)⟩

/-! ### `sja1105.c`: the start command -/

/-- The function `sja1105_qbv_stop` issues at most the stop command. -/
theorem sja1105_qbv_stop_events (env : sja1105_env) (t : sja1105_sync_timer) :
    (sja1105_qbv_stop env t).events = [] ∨
    (sja1105_qbv_stop env t).events = [sja1105_call.sja1105_ptp_qbv_stop] := by
  unfold sja1105_qbv_stop
  split_ifs <;> simp

/-- In a state other than disabled, with Qbv present, `sja1105_qbv_stop` issues
the stop command. -/
theorem sja1105_qbv_stop_issued (env : sja1105_env) (t : sja1105_sync_timer)
    (hq : t.have_qbv ≠ 0) (hs : t.qbv_state ≠ qbv_state.QBV_STATE_DISABLED) :
    (sja1105_qbv_stop env t).events = [sja1105_call.sja1105_ptp_qbv_stop] := by
  unfold sja1105_qbv_stop
  rw [if_neg hq, if_neg hs]
  split_ifs <;> rfl

/-- When `sja1105_qbv_start` issues the start command and the command
succeeds, the function returns 0. -/
theorem sja1105_qbv_start_ret (env : sja1105_env) (t : sja1105_sync_timer)
    (r : sja1105_out) (h : sja1105_qbv_start env t = some r)
    (hmem : sja1105_call.sja1105_ptp_qbv_start ∈ r.events) (hok : 0 ≤ env.qbv_start) :
    r.ret = 0 := by
  unfold sja1105_qbv_start at h
  by_cases hq : t.have_qbv = 0
  · rw [if_pos hq] at h; cases h; simp at hmem
  · rw [if_neg hq] at h
    cases hg : env.ptp_clk_get with
    | none => simp only [hg] at h; cases h; simp at hmem
    | some now =>
      simp only [hg] at h
      split_ifs at h with h1 h2 h3 h4
      · cases h; simp at hmem
      · cases h; simp at hmem
      · cases h; omega
      · cases h; rfl

/-- The function `sja1105_qbv_monitor` issues the start command only in the
disabled state, without a reset request and with the offset strictly inside
half the threshold; when the command succeeds the state becomes
enabled-not-running. -/
theorem sja1105_qbv_monitor_start (env : sja1105_env) (t : sja1105_sync_timer)
    (delay offset : Int) (q : sja1105_out)
    (h : sja1105_qbv_monitor env t delay offset = some q)
    (hmem : sja1105_call.sja1105_ptp_qbv_start ∈ q.events) :
    t.qbv_state = qbv_state.QBV_STATE_DISABLED ∧ t.reset_req = 0 ∧
    -(Int.tdiv t.max_offset 2) < offset ∧ offset < Int.tdiv t.max_offset 2 ∧
    (0 ≤ env.qbv_start →
      q.ret = 0 ∧ q.t.qbv_state = qbv_state.QBV_STATE_ENABLED_NOT_RUNNING) := by
  unfold sja1105_qbv_monitor at h
  by_cases hq : t.have_qbv = 0
  · rw [if_pos hq] at h; cases h; simp at hmem
  · rw [if_neg hq] at h
    cases hs : t.qbv_state with
    | QBV_STATE_DISABLED =>
      simp only [hs] at h
      by_cases h1 : t.reset_req ≠ 0
      · rw [if_pos h1] at h; cases h; simp at hmem
      · rw [if_neg h1] at h
        by_cases h2 : offset ≤ -(Int.tdiv t.max_offset 2) ∨ offset ≥ Int.tdiv t.max_offset 2
        · rw [if_pos h2] at h; cases h; simp at hmem
        · rw [if_neg h2] at h
          have h1' : t.reset_req = 0 := not_not.mp h1
          rw [not_or] at h2
          refine ⟨rfl, h1', by omega, by omega, ?_⟩
          intro hok
          cases hr : sja1105_qbv_start env t with
          | none => simp [hr] at h
          | some r =>
            simp only [hr] at h
            by_cases h3 : r.ret < 0
            · rw [if_pos h3] at h
              cases h
              have := sja1105_qbv_start_ret env t r hr hmem hok
              omega
            · rw [if_neg h3] at h
              cases h
              exact ⟨rfl, rfl⟩
    | QBV_STATE_ENABLED_NOT_RUNNING =>
      simp only [hs] at h
      by_cases h1 : t.reset_req ≠ 0
      · rw [if_pos h1] at h
        cases h
        rcases sja1105_qbv_stop_events env t with he | he <;> simp [he] at hmem
      · rw [if_neg h1] at h
        cases hg : env.ptp_clk_get with
        | none => simp only [hg] at h; cases h; simp at hmem
        | some now =>
          simp only [hg] at h
          split_ifs at h <;> (cases h; simp at hmem)
    | QBV_STATE_RUNNING =>
      simp only [hs] at h
      by_cases h1 : t.reset_req ≠ 0
      · rw [if_pos h1] at h
        cases h
        rcases sja1105_qbv_stop_events env t with he | he <;> simp [he] at hmem
      · rw [if_neg h1] at h
        by_cases h2 : env.qbv_running ≠ 0
        · rw [if_pos h2] at h; cases h; simp at hmem
        · rw [if_neg h2] at h
          cases hg : env.ptp_clk_get with
          | none => simp only [hg] at h; cases h; simp at hmem
          | some now => simp only [hg] at h; cases h; simp at hmem

/-- With a reset request pending `sja1105_qbv_monitor` returns and issues at
most the stop command. -/
theorem sja1105_qbv_monitor_reset (env : sja1105_env) (t : sja1105_sync_timer)
    (delay offset : Int) (h : t.reset_req ≠ 0) :
    ∃ q, sja1105_qbv_monitor env t delay offset = some q ∧
      (q.events = [] ∨ q.events = [sja1105_call.sja1105_ptp_qbv_stop]) := by
  unfold sja1105_qbv_monitor
  by_cases hq : t.have_qbv = 0
  · rw [if_pos hq]; exact ⟨_, rfl, Or.inl rfl⟩
  · rw [if_neg hq]
    cases hs : t.qbv_state with
    | QBV_STATE_DISABLED => simp only [if_pos h]; exact ⟨_, rfl, Or.inl rfl⟩
    | QBV_STATE_ENABLED_NOT_RUNNING =>
      simp only [if_pos h]; exact ⟨_, rfl, sja1105_qbv_stop_events env t⟩
    | QBV_STATE_RUNNING =>
      simp only [if_pos h]; exact ⟨_, rfl, sja1105_qbv_stop_events env t⟩

/-- The reset sequence does not issue the start command. -/
theorem sja1105_sync_reset_no_start (env : sja1105_env) (t : sja1105_sync_timer)
    (clkid delay offset : Int) :
    sja1105_call.sja1105_ptp_qbv_start ∉ (sja1105_sync_reset env t clkid delay offset).events := by
  cases hg : env.gettime <;>
    simp only [sja1105_sync_reset, hg] <;>
    split_ifs <;> simp

/-- The main part of a tick issues the start command only without a reset
request. -/
theorem sja1105_sync_main_start (env : sja1105_env) (t : sja1105_sync_timer)
    (delay offset : Int) (m : sja1105_out)
    (h : sja1105_sync_main env t delay offset = some m)
    (hmem : sja1105_call.sja1105_ptp_qbv_start ∈ m.events) : t.reset_req = 0 := by
  unfold sja1105_sync_main at h
  dsimp only at h
  split_ifs at h
  · cases h; simp at hmem
  · cases h; simp at hmem
  · cases h; simp at hmem
  · cases h; simp at hmem
  · split at h
    · simp at h
    · rename_i q hq
      cases h
      simp only [List.mem_append, List.mem_singleton, reduceCtorEq, false_or] at hmem
      exact (sja1105_qbv_monitor_start env _ _ _ q hq hmem).2.1

/-- With a reset request pending the main part of a tick returns. -/
theorem sja1105_sync_main_returns (env : sja1105_env) (t : sja1105_sync_timer)
    (delay offset : Int) (hr : t.reset_req ≠ 0) :
    ∃ m, sja1105_sync_main env t delay offset = some m := by
  unfold sja1105_sync_main
  dsimp only
  split_ifs
  · exact ⟨_, rfl⟩
  · exact ⟨_, rfl⟩
  · exact ⟨_, rfl⟩
  · exact ⟨_, rfl⟩
  · obtain ⟨q, hq, _⟩ := sja1105_qbv_monitor_reset env
      { t with
        sync_pi_s := (sja1105_sync_run_pi_servo t.sync_pi_s
          (sja1105_calculate env.calc_sync delay offset).offset).2,
        ratio := 1 + (sja1105_sync_run_pi_servo t.sync_pi_s
          (sja1105_calculate env.calc_sync delay offset).offset).1 }
      (sja1105_calculate env.calc_sync delay offset).delay
      (sja1105_calculate env.calc_sync delay offset).offset hr
    rw [hq]
    exact ⟨_, rfl⟩

/-- The reset sequence leaves `reset_req` alone. -/
theorem sja1105_sync_reset_req (env : sja1105_env) (t : sja1105_sync_timer)
    (clkid delay offset : Int) :
    (sja1105_sync_reset env t clkid delay offset).t.reset_req = t.reset_req := by
  have h := (sja1105_sync_reset_frame env t clkid delay offset).1
  rw [h]

/-- A tick issues the start command only when it begins without a reset
request. -/
theorem sja1105_sync_start (env : sja1105_env) (t : sja1105_sync_timer)
    (clkid delay offset : Int) (o : sja1105_out)
    (h : sja1105_sync env t clkid delay offset = some o)
    (hmem : sja1105_call.sja1105_ptp_qbv_start ∈ o.events) : t.reset_req = 0 := by
  have hns := sja1105_sync_reset_no_start env t clkid delay offset
  unfold sja1105_sync at h
  dsimp only at h
  split at h
  · cases h; exact absurd hmem hns
  · split at h
    · simp at h
    · rename_i m hm
      cases h
      rcases List.mem_append.mp hmem with h1 | h1
      · exact absurd h1 hns
      · rw [← sja1105_sync_reset_req env t clkid delay offset]
        exact sja1105_sync_main_start env _ _ _ m hm h1

/-- A tick that begins with a reset request returns. -/
theorem sja1105_sync_returns (env : sja1105_env) (t : sja1105_sync_timer)
    (clkid delay offset : Int) (hr : t.reset_req ≠ 0) :
    ∃ o, sja1105_sync env t clkid delay offset = some o := by
  unfold sja1105_sync
  dsimp only
  split
  · exact ⟨_, rfl⟩
  · obtain ⟨m, hm⟩ := sja1105_sync_main_returns env
      (sja1105_sync_reset env t clkid delay offset).t
      (sja1105_sync_reset env t clkid delay offset).delay
      (sja1105_sync_reset env t clkid delay offset).offset
      (by rw [sja1105_sync_reset_req]; exact hr)
    rw [hm]
    exact ⟨_, rfl⟩

/-- C13: `sja1105_qbv_monitor` issues the start command only when the state is
DISABLED, `reset_req` is clear and `-max_offset/2 < offset < max_offset/2`, and
when the command succeeds the monitor returns 0 with the state
ENABLED_NOT_RUNNING; with `reset_req` set the monitor returns without a start
command, and so does a whole `sja1105_sync` tick that begins with `reset_req`
set, the monitor call after its reset sequence included. -/
theorem sja1105_start_needs_no_reset (env : sja1105_env) (t : sja1105_sync_timer)
    (delay offset clkid delay0 offset0 : Int) :
    (∀ q, sja1105_qbv_monitor env t delay offset = some q →
      sja1105_call.sja1105_ptp_qbv_start ∈ q.events →
      t.qbv_state = qbv_state.QBV_STATE_DISABLED ∧ t.reset_req = 0 ∧
      -(Int.tdiv t.max_offset 2) < offset ∧ offset < Int.tdiv t.max_offset 2 ∧
      (0 ≤ env.qbv_start →
        q.ret = 0 ∧ q.t.qbv_state = qbv_state.QBV_STATE_ENABLED_NOT_RUNNING)) ∧
    (t.reset_req ≠ 0 →
      ∃ q, sja1105_qbv_monitor env t delay offset = some q ∧
        sja1105_call.sja1105_ptp_qbv_start ∉ q.events) ∧
    (t.reset_req ≠ 0 →
      ∃ o, sja1105_sync env t clkid delay0 offset0 = some o ∧
        sja1105_call.sja1105_ptp_qbv_start ∉ o.events) := by
  refine ⟨fun q hq hmem => sja1105_qbv_monitor_start env t delay offset q hq hmem, ?_, ?_⟩
  · intro hr
    obtain ⟨q, hq, he⟩ := sja1105_qbv_monitor_reset env t delay offset hr
    refine ⟨q, hq, ?_⟩
    rcases he with he | he <;> simp [he]
  · intro hr
    obtain ⟨o, ho⟩ := sja1105_sync_returns env t clkid delay0 offset0 hr
    refine ⟨o, ho, fun hmem => hr ?_⟩
    exact sja1105_sync_start env t clkid delay0 offset0 o ho hmem

theorem sja1105_start_needs_no_reset_witness :
    (sja1105_qbv_monitor example_sja1105_env example_timer 100 100).map
        (fun q => (q.ret, q.t.qbv_state, q.events)) =
      some (0, qbv_state.QBV_STATE_ENABLED_NOT_RUNNING,
        [sja1105_call.sja1105_ptp_clk_get,
         sja1105_call.sja1105_ptp_qbv_start_time_set ⟨1700000004, 0⟩,
         sja1105_call.sja1105_ptp_qbv_correction_period_set ⟨1, 0⟩,
         sja1105_call.sja1105_ptp_qbv_start]) ∧
    (∃ o, sja1105_sync example_sja1105_env example_timer_reset 0 0 0 = some o ∧
      sja1105_call.sja1105_ptp_qbv_start ∉ o.events) :=
  ⟨by decide!,
   (sja1105_start_needs_no_reset example_sja1105_env example_timer_reset 100 100 0 0 0).2.2
     (by decide)⟩

/-! ### `sja1105.c`: leaving the running state -/

/-- C14, counterexample: in the state RUNNING with no reset pending, an engine
reported as no longer running takes the state to DISABLED with the query as the
only call: no stop command is issued. -/
theorem sja1105_running_to_disabled_without_stop :
    example_timer_running.qbv_state = qbv_state.QBV_STATE_RUNNING ∧
    (sja1105_qbv_monitor example_sja1105_env_stopped example_timer_running 100 100).map
        (fun q => (q.ret, q.t.qbv_state, q.events)) =
      some (0, qbv_state.QBV_STATE_DISABLED, [sja1105_call.sja1105_ptp_qbv_running]) := by
  decide!

/-- C14, amended: a step of `sja1105_qbv_monitor` in the state RUNNING always
returns, and when it takes the state to DISABLED it does so either on
`reset_req`, and then it issues a stop command to the engine in that step, or
because the engine is reported as no longer running, and then it issues no
command but the query. -/
theorem sja1105_running_to_disabled (env : sja1105_env) (t : sja1105_sync_timer)
    (delay offset : Int) (hrun : t.qbv_state = qbv_state.QBV_STATE_RUNNING) :
    ∃ q, sja1105_qbv_monitor env t delay offset = some q ∧
      (q.t.qbv_state = qbv_state.QBV_STATE_DISABLED →
        (t.reset_req ≠ 0 ∧ q.events = [sja1105_call.sja1105_ptp_qbv_stop]) ∨
        (t.reset_req = 0 ∧ env.qbv_running ≠ 0 ∧
          q.events = [sja1105_call.sja1105_ptp_qbv_running])) := by
  unfold sja1105_qbv_monitor
  by_cases hq : t.have_qbv = 0
  · rw [if_pos hq]
    refine ⟨_, rfl, fun hd => ?_⟩
    rw [hrun] at hd
    exact absurd hd (by decide)
  · rw [if_neg hq]
    simp only [hrun]
    by_cases h1 : t.reset_req ≠ 0
    · rw [if_pos h1]
      refine ⟨_, rfl, fun _ => Or.inl ⟨h1, ?_⟩⟩
      exact sja1105_qbv_stop_issued env t hq (by rw [hrun]; decide)
    · rw [if_neg h1]
      by_cases h2 : env.qbv_running ≠ 0
      · rw [if_pos h2]
        exact ⟨_, rfl, fun _ => Or.inr ⟨not_not.mp h1, h2, rfl⟩⟩
      · rw [if_neg h2]
        cases hg : env.ptp_clk_get with
        | none =>
          refine ⟨_, rfl, fun hd => ?_⟩
          rw [hrun] at hd
          exact absurd hd (by decide)
        | some now =>
          refine ⟨_, rfl, fun hd => ?_⟩
          rw [hrun] at hd
          exact absurd hd (by decide)

theorem sja1105_running_to_disabled_witness :
    ∃ q, sja1105_qbv_monitor example_sja1105_env
        { example_timer_running with reset_req := 1 } 100 100 = some q ∧
      (q.t.qbv_state = qbv_state.QBV_STATE_DISABLED →
        ((1 : Int) ≠ 0 ∧ q.events = [sja1105_call.sja1105_ptp_qbv_stop]) ∨
        ((1 : Int) = 0 ∧ example_sja1105_env.qbv_running ≠ 0 ∧
          q.events = [sja1105_call.sja1105_ptp_qbv_running])) :=
  sja1105_running_to_disabled example_sja1105_env
    { example_timer_running with reset_req := 1 } 100 100 (by decide)

/-! ### `sja1105.c`: the engine started and not yet running -/

/-- C19: for every step of `sja1105_qbv_monitor` in the state
ENABLED_NOT_RUNNING (Qbv present) with no reset pending and a successful read
`ptpclk` of the switch clock: if `ptpclk` is not lower than `qbv_start_time` in
the order of `(sec, nsec)` and the engine is reported as running, the state
becomes RUNNING; if it is not lower and the engine is not running, the state
becomes DISABLED; if it is lower, the state stays ENABLED_NOT_RUNNING.  The
step returns 0 and issues no start command in any of the three cases. -/
theorem sja1105_enabled_not_running_step (env : sja1105_env) (t : sja1105_sync_timer)
    (delay offset : Int) (ptpclk : timespec)
    (hq : t.have_qbv ≠ 0)
    (hs : t.qbv_state = qbv_state.QBV_STATE_ENABLED_NOT_RUNNING)
    (hr : t.reset_req = 0) (hg : env.ptp_clk_get = some ptpclk) :
    (timespec_lower ptpclk t.qbv_start_time ≠ 0 ↔
      (ptpclk.tv_sec < t.qbv_start_time.tv_sec ∨
        (ptpclk.tv_sec = t.qbv_start_time.tv_sec ∧
          ptpclk.tv_nsec < t.qbv_start_time.tv_nsec))) ∧
    (timespec_lower ptpclk t.qbv_start_time = 0 → env.qbv_running = 0 →
      sja1105_qbv_monitor env t delay offset =
        some { ret := 0, t := { t with qbv_state := qbv_state.QBV_STATE_RUNNING },
               events := [sja1105_call.sja1105_ptp_clk_get,
                          sja1105_call.sja1105_ptp_qbv_running] }) ∧
    (timespec_lower ptpclk t.qbv_start_time = 0 → env.qbv_running ≠ 0 →
      sja1105_qbv_monitor env t delay offset =
        some { ret := 0, t := { t with qbv_state := qbv_state.QBV_STATE_DISABLED },
               events := [sja1105_call.sja1105_ptp_clk_get,
                          sja1105_call.sja1105_ptp_qbv_running] }) ∧
    (timespec_lower ptpclk t.qbv_start_time ≠ 0 →
      sja1105_qbv_monitor env t delay offset =
        some { ret := 0, t := t, events := [sja1105_call.sja1105_ptp_clk_get] }) ∧
    (∃ q, sja1105_qbv_monitor env t delay offset = some q ∧ q.ret = 0 ∧
      sja1105_call.sja1105_ptp_qbv_start ∉ q.events) := by
  have hr' : ¬ t.reset_req ≠ 0 := not_not.mpr hr
  have hmon : sja1105_qbv_monitor env t delay offset =
      if timespec_lower ptpclk t.qbv_start_time ≠ 0 then
        some { ret := 0, t := t, events := [sja1105_call.sja1105_ptp_clk_get] }
      else if env.qbv_running = 0 then
        some { ret := 0, t := { t with qbv_state := qbv_state.QBV_STATE_RUNNING },
               events := [sja1105_call.sja1105_ptp_clk_get,
                          sja1105_call.sja1105_ptp_qbv_running] }
      else
        some { ret := 0, t := { t with qbv_state := qbv_state.QBV_STATE_DISABLED },
               events := [sja1105_call.sja1105_ptp_clk_get,
                          sja1105_call.sja1105_ptp_qbv_running] } := by
    unfold sja1105_qbv_monitor
    rw [if_neg hq]
    simp only [hs, if_neg hr', hg]
  refine ⟨?_, ?_, ?_, ?_, ?_⟩
  · unfold timespec_lower
    split_ifs with h1 h2 h3 <;> constructor <;> intro h <;> omega
  · intro h1 h2
    rw [hmon, if_neg (not_not.mpr h1), if_pos h2]
  · intro h1 h2
    rw [hmon, if_neg (not_not.mpr h1), if_neg h2]
  · intro h1
    rw [hmon, if_pos h1]
  · rw [hmon]
    split_ifs <;> exact ⟨_, rfl, rfl, by simp⟩

theorem sja1105_enabled_not_running_step_witness :
    sja1105_qbv_monitor example_sja1105_env example_timer_enabled 100 100 =
      some { ret := 0,
             t := { example_timer_enabled with qbv_state := qbv_state.QBV_STATE_RUNNING },
             events := [sja1105_call.sja1105_ptp_clk_get,
                        sja1105_call.sja1105_ptp_qbv_running] } :=
  (sja1105_enabled_not_running_step example_sja1105_env example_timer_enabled 100 100
    ⟨1700000000, 0⟩ (by decide) (by decide) (by decide) (by decide)).2.1
    (by decide) (by decide)

/-! ### `sja1105.c`: the start time of the Qbv cycle -/

/-- What the start-time line of `sja1105_qbv_start` computes, for a time `now`
and a cycle length `len > 0` that fit 64 bits: the smallest multiple of `len`
strictly above `now`, which is `now + len` when `now` is itself a multiple. -/
theorem qbv_start_time_ns_spec (now len : Int) (h0 : 0 ≤ now) (hl : 0 < len)
    (hfit : now + len < 18446744073709551616) :
    len ∣ qbv_start_time_ns now len ∧ now < qbv_start_time_ns now len ∧
    qbv_start_time_ns now len ≤ now + len ∧
    (len ∣ now → qbv_start_time_ns now len = now + len) := by
  have h1 := Int.ediv_add_emod now len
  have h2 := Int.emod_nonneg now (ne_of_gt hl)
  have h3 := Int.emod_lt_of_pos now hl
  have h4 : (1 + now / len) * len = len * (now / len) + len := by ring
  have h5 : qbv_start_time_ns now len = len * (now / len) + len := by
    unfold qbv_start_time_ns
    rw [h4]
    exact u64_eq_self (by nlinarith [Int.ediv_nonneg h0 (le_of_lt hl)]) (by omega)
  rw [h5]
  refine ⟨?_, by omega, by omega, ?_⟩
  · exact Dvd.intro (now / len + 1) (by ring)
  · intro hd
    have h6 : now % len = 0 := Int.emod_eq_zero_of_dvd hd
    omega

/-- C15, failing input: with the switch clock at 1700000000 s exactly and a
cycle of 1 s, the time three seconds ahead, 1700000003 s, is a multiple of the
cycle length and so the smallest multiple not below itself, but
`sja1105_qbv_start` schedules the start at 1700000004 s, whether PTP time
counts nanoseconds or ticks of 8 ns. -/
theorem sja1105_qbv_start_aligned :
    (sja1105_qbv_start example_sja1105_env example_timer).map
        (fun r => (r.ret, r.t.qbv_start_time)) = some (0, ⟨1700000004, 0⟩) ∧
    (sja1105_qbv_start example_sja1105_env_ticks example_timer).map
        (fun r => (r.ret, r.t.qbv_start_time)) = some (0, ⟨1700000004, 0⟩) ∧
    example_sja1105_env.ptp_clk_get = some ⟨1700000000, 0⟩ ∧
    example_timer.qbv_cycle_len = ⟨1, 0⟩ ∧
    qbv_start_time_ns 1700000003000000000 1000000000 = 1700000004000000000 ∧
    (1700000003000000000 : Int) % 1000000000 = 0 := by
  decide!

/-! ### `sja1105.c`: the step policy and the reset sequence -/

/-- The main part of a tick whose measurement succeeds with an offset of at
least the threshold: it returns 0 with no call, and sets `reset_req` when the
offset is at least one second. -/
theorem sja1105_sync_main_skip (env : sja1105_env) (t : sja1105_sync_timer)
    (delay offset : Int)
    (hok : (sja1105_calculate env.calc_sync delay offset).ret = 0)
    (hbig : t.max_offset ≤ |(sja1105_calculate env.calc_sync delay offset).offset|) :
    sja1105_sync_main env t delay offset =
      some { ret := 0,
             t := { t with reset_req :=
               if 1000000000 ≤ |(sja1105_calculate env.calc_sync delay offset).offset|
               then 1 else t.reset_req },
             events := [] } := by
  have hb : (sja1105_calculate env.calc_sync delay offset).offset ≥ t.max_offset ∨
      (sja1105_calculate env.calc_sync delay offset).offset ≤ -t.max_offset := by
    rcases le_abs'.mp hbig with h | h
    · right; exact h
    · left; exact h
  unfold sja1105_sync_main
  dsimp only
  rw [if_neg (not_not.mpr hok), if_pos hb]
  by_cases h1 : (1000000000 : Int) ≤ |(sja1105_calculate env.calc_sync delay offset).offset|
  · have h1' : (sja1105_calculate env.calc_sync delay offset).offset ≥ NS_PER_SEC ∨
        (sja1105_calculate env.calc_sync delay offset).offset ≤ -NS_PER_SEC := by
      unfold NS_PER_SEC
      rcases le_abs'.mp h1 with h | h
      · right; exact h
      · left; exact h
    rw [if_pos h1', if_pos h1]
  · have h1' : ¬ ((sja1105_calculate env.calc_sync delay offset).offset ≥ NS_PER_SEC ∨
        (sja1105_calculate env.calc_sync delay offset).offset ≤ -NS_PER_SEC) := by
      unfold NS_PER_SEC
      intro h
      apply h1
      rcases h with h | h
      · exact le_abs'.mpr (Or.inr h)
      · exact le_abs'.mpr (Or.inl h)
    rw [if_neg h1', if_neg h1]

/-- A requested reset sequence begins with the hardware reset. -/
theorem sja1105_sync_reset_head (env : sja1105_env) (t : sja1105_sync_timer)
    (clkid delay offset : Int) (hr : t.reset_req ≠ 0) :
    ∃ rest, (sja1105_sync_reset env t clkid delay offset).events =
      sja1105_call.sja1105_ptp_reset :: rest := by
  cases hg : env.gettime <;>
    simp only [sja1105_sync_reset, hg, if_neg hr] <;>
    split_ifs <;> simp

/-- A tick that begins with a reset request begins with the hardware reset. -/
theorem sja1105_sync_head (env : sja1105_env) (t : sja1105_sync_timer)
    (clkid delay offset : Int) (hr : t.reset_req ≠ 0) :
    ∃ o rest, sja1105_sync env t clkid delay offset = some o ∧
      o.events = sja1105_call.sja1105_ptp_reset :: rest := by
  obtain ⟨o, ho⟩ := sja1105_sync_returns env t clkid delay offset hr
  obtain ⟨rest, hrest⟩ := sja1105_sync_reset_head env t clkid delay offset hr
  cases hrr : (sja1105_sync_reset env t clkid delay offset).ret with
  | some rc =>
    exact ⟨{ ret := rc, t := (sja1105_sync_reset env t clkid delay offset).t,
             events := (sja1105_sync_reset env t clkid delay offset).events },
      rest, by simp only [sja1105_sync, hrr], hrest⟩
  | none =>
    simp only [sja1105_sync, hrr] at ho
    cases hm : sja1105_sync_main env (sja1105_sync_reset env t clkid delay offset).t
        (sja1105_sync_reset env t clkid delay offset).delay
        (sja1105_sync_reset env t clkid delay offset).offset with
    | none => simp [hm] at ho
    | some m =>
      refine ⟨{ ret := m.ret, t := m.t,
                events := (sja1105_sync_reset env t clkid delay offset).events ++ m.events },
        rest ++ m.events, by simp only [sja1105_sync, hrr, hm], ?_⟩
      show (sja1105_sync_reset env t clkid delay offset).events ++ m.events = _
      rw [hrest]
      rfl

/-- The function `sja1105_parse_staging_area` leaves `max_offset` alone. -/
theorem sja1105_parse_staging_area_max_offset (cfg : Option sja1105_static_config)
    (t : sja1105_sync_timer) :
    (sja1105_parse_staging_area cfg t).2.max_offset = t.max_offset := by
  unfold sja1105_parse_staging_area
  cases cfg with
  | none => rfl
  | some c => dsimp only; split_ifs <;> rfl

/-- A successful `sja1105_sync_timer_create` leaves the configured threshold
times 1000 in `max_offset`. -/
theorem sja1105_sync_timer_create_max_offset (cfg : sja1105_config)
    (t : sja1105_sync_timer) (h : (sja1105_sync_timer_create cfg t).1 = 0) :
    (sja1105_sync_timer_create cfg t).2.max_offset = cfg.sja1105_max_offset * 1000 := by
  unfold sja1105_sync_timer_create at h ⊢
  dsimp only at h ⊢
  split_ifs at h ⊢
  all_goals first
    | (simp at h; done)
    | (rw [sja1105_parse_staging_area_max_offset])

/-- C16, counterexample: a tick that begins with `reset_req` set and whose
measurement after the reset sequence is 1.2 s, above the threshold of 1 ms,
returns 0 after it has written the rate ratio 1 and changed ratio (from 3/2)
and integrator (from 40). -/
theorem sja1105_sync_skip_after_reset :
    example_timer_reset.reset_req = 1 ∧ example_timer_reset.max_offset = 1000000 ∧
    example_timer_reset.ratio = 3 / 2 ∧ example_timer_reset.sync_pi_s.drift_sum = 40 ∧
    (sja1105_calculate example_sja1105_env_far.calc_sync 0 0).offset = 1200000000 ∧
    sja1105_sync example_sja1105_env_far example_timer_reset 0 0 0 =
      some { ret := 0,
             t := { example_timer_reset with
                    ratio := 1, sync_pi_s := { kp := 1, ki := 1 / 2, drift_sum := 0 } },
             events := [sja1105_call.sja1105_ptp_reset,
                        sja1105_call.sja1105_ptp_clk_rate_set 1,
                        sja1105_call.clock_gettime 0,
                        sja1105_call.sja1105_ptp_clk_set ⟨1699999999, 500⟩,
                        sja1105_call.sja1105_ptp_clk_add ⟨0, 999999100⟩] } := by
  decide!

/-- C16, amended: for every tick that begins with `reset_req` clear and whose
measurement succeeds with `|offset| ≥ max_offset`, `sja1105_sync` returns 0
with no call but the clock reads of the measurement (no rate ratio written, the
monitor not run) and leaves the timer
as it was, but for `reset_req`, which is set when `|offset| ≥ 10^9` and left as
it was otherwise.  In a tick whose reset sequence has run before such a
measurement, nothing is added to the calls and changes of the reset sequence
but the same update of `reset_req`.  A tick that begins with `reset_req` set
begins with the hardware reset, and a successful `sja1105_sync_timer_create`
leaves the configured threshold times 1000 in `max_offset`. -/
theorem sja1105_sync_step_policy (env : sja1105_env) (t : sja1105_sync_timer)
    (clkid delay0 offset0 : Int) (cfg : sja1105_config) (t0 : sja1105_sync_timer) :
    (t.reset_req = 0 →
      (sja1105_calculate env.calc_sync delay0 offset0).ret = 0 →
      t.max_offset ≤ |(sja1105_calculate env.calc_sync delay0 offset0).offset| →
      sja1105_sync env t clkid delay0 offset0 =
        some { ret := 0,
               t := { t with reset_req :=
                 if 1000000000 ≤ |(sja1105_calculate env.calc_sync delay0 offset0).offset|
                 then 1 else t.reset_req },
               events := [] }) ∧
    ((sja1105_sync_reset env t clkid delay0 offset0).ret = none →
      (sja1105_calculate env.calc_sync
        (sja1105_sync_reset env t clkid delay0 offset0).delay
        (sja1105_sync_reset env t clkid delay0 offset0).offset).ret = 0 →
      t.max_offset ≤ |(sja1105_calculate env.calc_sync
        (sja1105_sync_reset env t clkid delay0 offset0).delay
        (sja1105_sync_reset env t clkid delay0 offset0).offset).offset| →
      sja1105_sync env t clkid delay0 offset0 =
        some { ret := 0,
               t := { (sja1105_sync_reset env t clkid delay0 offset0).t with reset_req :=
                 if 1000000000 ≤ |(sja1105_calculate env.calc_sync
                   (sja1105_sync_reset env t clkid delay0 offset0).delay
                   (sja1105_sync_reset env t clkid delay0 offset0).offset).offset|
                 then 1 else t.reset_req },
               events := (sja1105_sync_reset env t clkid delay0 offset0).events }) ∧
    (t.reset_req ≠ 0 →
      ∃ o rest, sja1105_sync env t clkid delay0 offset0 = some o ∧
        o.events = sja1105_call.sja1105_ptp_reset :: rest) ∧
    ((sja1105_sync_timer_create cfg t0).1 = 0 →
      (sja1105_sync_timer_create cfg t0).2.max_offset = cfg.sja1105_max_offset * 1000) := by
  have hgen : (sja1105_sync_reset env t clkid delay0 offset0).ret = none →
      (sja1105_calculate env.calc_sync
        (sja1105_sync_reset env t clkid delay0 offset0).delay
        (sja1105_sync_reset env t clkid delay0 offset0).offset).ret = 0 →
      t.max_offset ≤ |(sja1105_calculate env.calc_sync
        (sja1105_sync_reset env t clkid delay0 offset0).delay
        (sja1105_sync_reset env t clkid delay0 offset0).offset).offset| →
      sja1105_sync env t clkid delay0 offset0 =
        some { ret := 0,
               t := { (sja1105_sync_reset env t clkid delay0 offset0).t with reset_req :=
                 if 1000000000 ≤ |(sja1105_calculate env.calc_sync
                   (sja1105_sync_reset env t clkid delay0 offset0).delay
                   (sja1105_sync_reset env t clkid delay0 offset0).offset).offset|
                 then 1 else t.reset_req },
               events := (sja1105_sync_reset env t clkid delay0 offset0).events } := by
    intro hnone hok hbig
    have hmax : (sja1105_sync_reset env t clkid delay0 offset0).t.max_offset = t.max_offset := by
      have h := (sja1105_sync_reset_frame env t clkid delay0 offset0).1
      rw [h]
    have hreq := sja1105_sync_reset_req env t clkid delay0 offset0
    have hmain := sja1105_sync_main_skip env (sja1105_sync_reset env t clkid delay0 offset0).t
      (sja1105_sync_reset env t clkid delay0 offset0).delay
      (sja1105_sync_reset env t clkid delay0 offset0).offset hok (by rw [hmax]; exact hbig)
    simp only [sja1105_sync, hnone, hmain, hreq, List.append_nil]
  refine ⟨?_, hgen, sja1105_sync_head env t clkid delay0 offset0,
    sja1105_sync_timer_create_max_offset cfg t0⟩
  intro hr hok hbig
  have hskip := sja1105_sync_reset_skip env t clkid delay0 offset0 hr
  have := hgen (by rw [hskip]) (by rw [hskip]; exact hok) (by rw [hskip]; exact hbig)
  rw [hskip] at this
  exact this

theorem sja1105_sync_step_policy_witness :
    sja1105_sync example_sja1105_env_far example_timer 0 0 0 =
      some { ret := 0,
             t := { example_timer with reset_req :=
               if 1000000000 ≤ |(sja1105_calculate example_sja1105_env_far.calc_sync 0 0).offset|
               then 1 else example_timer.reset_req },
             events := [] } ∧
    (sja1105_calculate example_sja1105_env_far.calc_sync 0 0).offset = 1200000000 ∧
    (∃ o rest, sja1105_sync example_sja1105_env { example_timer with reset_req := 1 } 0 0 0 =
        some o ∧ o.events = sja1105_call.sja1105_ptp_reset :: rest) :=
  ⟨(sja1105_sync_step_policy example_sja1105_env_far example_timer 0 0 0
      ⟨1000, 0, 5, 1, 1 / 2, none⟩ example_timer).1 (by decide) (by decide) (by decide),
   by decide,
   (sja1105_sync_step_policy example_sja1105_env { example_timer with reset_req := 1 } 0 0 0
      ⟨1000, 0, 5, 1, 1 / 2, none⟩ example_timer).2.2.1 (by decide)⟩

/-- C17: in a tick with `reset_req` set in which the hardware reset, the write
of the rate, the read of the host clock `cur` and the write of the switch clock
succeed and the measurement succeeds with `offset`: the ratio is set to 1 and
written, the switch clock is set to `cur` minus 1 s, and then, if `offset > 0`
the tick returns -1 with nothing written to the step-add register, integrator
and `reset_req` as they were; if `offset ≤ 0` (and the write succeeds) the
step-add register is written with `(sec, nsec)` such that
`sec * 10^9 + nsec = -offset` and `0 ≤ nsec < 10^9`, the integrator is set to 0
and the tick goes on to the regular measurement. -/
theorem sja1105_sync_reset_sequence (env : sja1105_env) (t : sja1105_sync_timer)
    (clkid delay0 offset0 : Int) (cur : timespec) (m : sja1105_calc_out)
    (hr : t.reset_req ≠ 0) (h1 : env.ptp_reset = 0) (h2 : env.clk_rate_set_reset = 0)
    (h3 : env.gettime = some cur) (h4 : 0 ≤ env.clk_set)
    (hm : sja1105_calculate env.calc_reset delay0 offset0 = m) (h5 : m.ret = 0) :
    (m.offset > 0 →
      sja1105_sync env t clkid delay0 offset0 =
        some { ret := -1, t := { t with ratio := 1 },
               events := [sja1105_call.sja1105_ptp_reset,
                          sja1105_call.sja1105_ptp_clk_rate_set 1,
                          sja1105_call.clock_gettime clkid,
                          sja1105_call.sja1105_ptp_clk_set ⟨cur.tv_sec - 1, cur.tv_nsec⟩] }) ∧
    (m.offset ≤ 0 → 0 ≤ env.clk_add →
      ∃ sec nsec, sec * 1000000000 + nsec = -m.offset ∧ 0 ≤ nsec ∧ nsec < 1000000000 ∧
        sja1105_sync_reset env t clkid delay0 offset0 =
          { ret := none,
            t := { t with ratio := 1, sync_pi_s := { t.sync_pi_s with drift_sum := 0 } },
            delay := m.delay, offset := m.offset,
            events := [sja1105_call.sja1105_ptp_reset,
                       sja1105_call.sja1105_ptp_clk_rate_set 1,
                       sja1105_call.clock_gettime clkid,
                       sja1105_call.sja1105_ptp_clk_set ⟨cur.tv_sec - 1, cur.tv_nsec⟩,
                       sja1105_call.sja1105_ptp_clk_add ⟨sec, nsec⟩] } ∧
        ∃ o rest, sja1105_sync env t clkid delay0 offset0 = some o ∧
          o.events = [sja1105_call.sja1105_ptp_reset,
                      sja1105_call.sja1105_ptp_clk_rate_set 1,
                      sja1105_call.clock_gettime clkid,
                      sja1105_call.sja1105_ptp_clk_set ⟨cur.tv_sec - 1, cur.tv_nsec⟩,
                      sja1105_call.sja1105_ptp_clk_add ⟨sec, nsec⟩] ++ rest) := by
  have h1' : ¬ env.ptp_reset ≠ 0 := not_not.mpr h1
  have h2' : ¬ env.clk_rate_set_reset ≠ 0 := not_not.mpr h2
  have h4' : ¬ env.clk_set < 0 := not_lt.mpr h4
  have h5' : ¬ m.ret ≠ 0 := not_not.mpr h5
  constructor
  · intro hpos
    have hreset : sja1105_sync_reset env t clkid delay0 offset0 =
        { ret := some (-1), t := { t with ratio := 1 }, delay := m.delay, offset := m.offset,
          events := [sja1105_call.sja1105_ptp_reset,
                     sja1105_call.sja1105_ptp_clk_rate_set 1,
                     sja1105_call.clock_gettime clkid,
                     sja1105_call.sja1105_ptp_clk_set ⟨cur.tv_sec - 1, cur.tv_nsec⟩] } := by
      simp only [sja1105_sync_reset, if_neg hr, if_neg h1', if_neg h2', h3, if_neg h4', hm,
        if_neg h5', if_pos hpos, List.cons_append, List.nil_append]
    simp only [sja1105_sync, hreset]
  · intro hle hadd
    have hadd' : ¬ env.clk_add < 0 := not_lt.mpr hadd
    have hpos : ¬ m.offset > 0 := not_lt.mpr hle
    have hnn : 0 ≤ -m.offset := by omega
    have hdiv : Int.tdiv (-m.offset) NS_PER_SEC = -m.offset / 1000000000 :=
      Int.tdiv_eq_ediv hnn (by decide)
    have hmod : Int.tmod (-m.offset) NS_PER_SEC = -m.offset % 1000000000 :=
      Int.tmod_eq_emod hnn (by decide)
    have hreset : sja1105_sync_reset env t clkid delay0 offset0 =
        { ret := none,
          t := { t with ratio := 1, sync_pi_s := { t.sync_pi_s with drift_sum := 0 } },
          delay := m.delay, offset := m.offset,
          events := [sja1105_call.sja1105_ptp_reset,
                     sja1105_call.sja1105_ptp_clk_rate_set 1,
                     sja1105_call.clock_gettime clkid,
                     sja1105_call.sja1105_ptp_clk_set ⟨cur.tv_sec - 1, cur.tv_nsec⟩,
                     sja1105_call.sja1105_ptp_clk_add
                       ⟨-m.offset / 1000000000, -m.offset % 1000000000⟩] } := by
      simp only [sja1105_sync_reset, if_neg hr, if_neg h1', if_neg h2', h3, if_neg h4', hm,
        if_neg h5', if_neg hpos, if_neg hadd', hdiv, hmod, List.cons_append, List.nil_append]
    refine ⟨-m.offset / 1000000000, -m.offset % 1000000000, by omega, by omega, by omega,
      hreset, ?_⟩
    obtain ⟨o, ho⟩ := sja1105_sync_main_returns env
      { t with ratio := 1, sync_pi_s := { t.sync_pi_s with drift_sum := 0 } }
      m.delay m.offset hr
    have hsync : sja1105_sync env t clkid delay0 offset0 =
        some { ret := o.ret, t := o.t,
               events := [sja1105_call.sja1105_ptp_reset,
                          sja1105_call.sja1105_ptp_clk_rate_set 1,
                          sja1105_call.clock_gettime clkid,
                          sja1105_call.sja1105_ptp_clk_set ⟨cur.tv_sec - 1, cur.tv_nsec⟩,
                          sja1105_call.sja1105_ptp_clk_add
                            ⟨-m.offset / 1000000000, -m.offset % 1000000000⟩] ++ o.events } := by
      simp only [sja1105_sync, hreset, ho]
    exact ⟨_, o.events, hsync, rfl⟩

theorem sja1105_sync_reset_sequence_witness :
    ∃ sec nsec, sec * 1000000000 + nsec = -(-999999100 : Int) ∧ 0 ≤ nsec ∧ nsec < 1000000000 ∧
      sja1105_sync_reset example_sja1105_env example_timer_reset 0 0 0 =
        { ret := none,
          t := { example_timer_reset with
                 ratio := 1,
                 sync_pi_s := { example_timer_reset.sync_pi_s with drift_sum := 0 } },
          delay := 100, offset := -999999100,
          events := [sja1105_call.sja1105_ptp_reset,
                     sja1105_call.sja1105_ptp_clk_rate_set 1,
                     sja1105_call.clock_gettime 0,
                     sja1105_call.sja1105_ptp_clk_set ⟨1700000000 - 1, 500⟩,
                     sja1105_call.sja1105_ptp_clk_add ⟨sec, nsec⟩] } ∧
      ∃ o rest, sja1105_sync example_sja1105_env example_timer_reset 0 0 0 = some o ∧
        o.events = [sja1105_call.sja1105_ptp_reset,
                    sja1105_call.sja1105_ptp_clk_rate_set 1,
                    sja1105_call.clock_gettime 0,
                    sja1105_call.sja1105_ptp_clk_set ⟨1700000000 - 1, 500⟩,
                    sja1105_call.sja1105_ptp_clk_add ⟨sec, nsec⟩] ++ rest :=
  (sja1105_sync_reset_sequence example_sja1105_env example_timer_reset 0 0 0
    ⟨1700000000, 500⟩ { ret := 0, delay := 100, offset := -999999100 }
    (by decide) (by decide) (by decide) (by decide) (by decide) (by decide) (by decide)).2
    (by decide) (by decide)

end Phc2sys
